import Mathlib

/-!
Verification development for a CPU path tracer (spheres and finite
cylinders, three material models, gamma-encoded PPM output).

The geometry kernel (vector.hpp, ray.hpp, object.cpp, scene.cpp,
material.cpp, color.cpp and the shader of par/src/application.cpp and
soa/src/application.cpp) is embedded over the real numbers: C++ `double`
becomes `ℝ`, the `+infinity` upper bound of an intersection interval
becomes `(⊤ : EReal)`, and a C++ function that can throw becomes an
`Option`-returning function.  The text-file subsystems (config.cpp and
scene_parser.cpp) are embedded computably, with `ℚ` standing for the
parsed `double` values, so that concrete runs can be settled by `decide`.
-/

namespace RT

noncomputable section

open scoped Classical

/-- Tolerance `epsilon = 1e-8` from vector.hpp. -/
def eps : ℝ := 1e-8

/-- `min_hit_distance = 1e-3` from object.cpp. -/
def minHitDistance : ℝ := 1e-3

/-- `cap_epsilon = 1e-8` from object.cpp (`within_caps`). -/
def capEpsilon : ℝ := 1e-8

/-- `eps_parallel = 1e-8` from object.cpp (`cylinder::hit_cap`). -/
def epsParallel : ℝ := 1e-8

/-- 3D vector of doubles (class `vector` of vector.hpp). -/
structure Vec where
  x : ℝ
  y : ℝ
  z : ℝ

instance : Add Vec := ⟨fun a b => ⟨a.x + b.x, a.y + b.y, a.z + b.z⟩⟩

instance : Sub Vec := ⟨fun a b => ⟨a.x - b.x, a.y - b.y, a.z - b.z⟩⟩

instance : Neg Vec := ⟨fun a => ⟨-a.x, -a.y, -a.z⟩⟩

/-- Scalar multiplication (`vector::operator*(double)` and the
commuted overload). -/
instance : SMul ℝ Vec := ⟨fun s a => ⟨a.x * s, a.y * s, a.z * s⟩⟩

/-- `vector::dot`. -/
def dot (a b : Vec) : ℝ := a.x * b.x + a.y * b.y + a.z * b.z

/-- `vector::magnitude_squared`. -/
def magSq (v : Vec) : ℝ := v.x * v.x + v.y * v.y + v.z * v.z

/-- `vector::magnitude`. -/
def mag (v : Vec) : ℝ := Real.sqrt (magSq v)

/-- `vector::is_near_zero`: every component strictly inside `(-ε, ε)`. -/
def nearZero (v : Vec) : Prop :=
  (-eps < v.x ∧ v.x < eps) ∧ (-eps < v.y ∧ v.y < eps) ∧ (-eps < v.z ∧ v.z < eps)

/-- `vector::normalized`, which throws when `|v| < ε` (hence `Option`). -/
def normalizedOpt (v : Vec) : Option Vec :=
  if mag v < eps then none else some ((1 / mag v) • v)

/-- `vector::perpendicular_to`. -/
def perpTo (v axis : Vec) : Vec := v - (dot v axis) • axis

/-- Componentwise product (`color::operator*(color)` of color.hpp). -/
def cmul (a b : Vec) : Vec := ⟨a.x * b.x, a.y * b.y, a.z * b.z⟩

/-- Ray (ray.hpp): plain origin/direction carrier. -/
structure Ray where
  orig : Vec
  dir : Vec

/-- The validating ray constructor `ray::ray`, which throws when
`direction.magnitude_squared() < epsilon` (note: `< ε`, not `< ε²`). -/
def rayMk (origin direction : Vec) : Option Ray :=
  if magSq direction < eps then none else some ⟨origin, direction⟩

/-- `ray::at`. -/
def rayAt (r : Ray) (t : ℝ) : Vec := r.orig + t • r.dir

/-- Material (material.hpp): closed sum of the three variants. -/
inductive Material where
  | matte (reflectance : Vec)
  | metal (reflectance : Vec) (diffusion : ℝ)
  | refractive (ior : ℝ)

/-- `hit_record` of object.hpp; `mat_ptr` of type `material const *`
becomes an `Option Material`. -/
structure HitRecord where
  point : Vec
  normal : Vec
  matPtr : Option Material
  t : ℝ
  frontFace : Bool

/-- The default-initialised `hit_record` (zero vectors, null material). -/
def hitRecordDefault : HitRecord :=
  { point := ⟨0, 0, 0⟩, normal := ⟨0, 0, 0⟩, matPtr := none, t := 0, frontFace := false }

/-- `is_in_range` of object.cpp, with an `EReal` upper end so that the
shader's `+infinity` bound is representable. -/
def inRangeE (v lo : ℝ) (hi : EReal) : Prop := lo ≤ v ∧ (v : EReal) ≤ hi

/-- Sphere (object.hpp): `inv_radius` is `1 / radius`, established by the
constructor, so it is not stored separately here. -/
structure Sphere where
  center : Vec
  radius : ℝ
  mat : Material

/-- The hit record `sphere::hit` writes for parameter `t`. -/
def sphereRecordAt (s : Sphere) (r : Ray) (t : ℝ) : HitRecord :=
  let point := rayAt r t
  let outward := (1 / s.radius) • (point - s.center)
  let ff : Prop := dot r.dir outward < 0
  { point := point, normal := if ff then outward else -outward,
    matPtr := some s.mat, t := t, frontFace := if ff then true else false }

/-- `sphere::hit` (object.cpp, lines 128-162). -/
def sphereHit (s : Sphere) (r : Ray) (tMin : ℝ) (tMax : EReal) (rec : HitRecord) :
    Bool × HitRecord :=
  let rc := s.center - r.orig
  let dr := r.dir
  let a := dot dr dr
  let b := -2 * dot dr rc
  let c := dot rc rc - s.radius * s.radius
  let disc := b * b - 4 * a * c
  if disc < 0 then (false, rec)
  else
    let sqrtDisc := Real.sqrt disc
    let twoA := 2 * a
    let effMin := max tMin minHitDistance
    let t1 := (-b - sqrtDisc) / twoA
    if inRangeE t1 effMin tMax then (true, sphereRecordAt s r t1)
    else
      let t2 := (-b + sqrtDisc) / twoA
      if inRangeE t2 effMin tMax then (true, sphereRecordAt s r t2)
      else (false, rec)

/-- Cylinder (object.hpp): `axisN` and `height` are the derived
`axis_normalized` and `height = |axis|` fields set by the constructor. -/
structure Cylinder where
  center : Vec
  radius : ℝ
  axis : Vec
  axisN : Vec
  height : ℝ
  mat : Material

/-- Quadratic coefficients (struct `Quad` of object.cpp). -/
structure Quad where
  a : ℝ
  b : ℝ
  c : ℝ

/-- `cylinder_quad` of object.cpp. -/
def cylinderQuad (rc dr axisN : Vec) (radius : ℝ) : Quad :=
  let rcPerp := perpTo rc axisN
  let drPerp := perpTo dr axisN
  ⟨dot drPerp drPerp, 2 * dot rcPerp drPerp, dot rcPerp rcPerp - radius * radius⟩

/-- `choose_root` of object.cpp: smaller root first, then the larger. -/
def chooseRoot (q : Quad) (rmin : ℝ) (rmax : EReal) : Option ℝ :=
  let disc := q.b * q.b - 4 * q.a * q.c
  if disc < 0 then none
  else
    let sqrtDisc := Real.sqrt disc
    let twoA := 2 * q.a
    let effMin := max rmin minHitDistance
    let t1 := (-q.b - sqrtDisc) / twoA
    if effMin ≤ t1 ∧ (t1 : EReal) ≤ rmax then some t1
    else
      let t2 := (-q.b + sqrtDisc) / twoA
      if effMin ≤ t2 ∧ (t2 : EReal) ≤ rmax then some t2 else none

/-- `within_caps` of object.cpp. -/
def withinCaps (p center axisN : Vec) (height : ℝ) : Prop :=
  |dot (p - center) axisN| ≤ height * 0.5 + capEpsilon

/-- `outward_normal_at` of object.cpp (lines 76-90): the radial
projection is returned as-is, without division by the radius. -/
def outwardNormalAt (p center axisN : Vec) : Option Vec :=
  let radialVec := p - center
  let axialComp := dot radialVec axisN
  let radialProj := radialVec - axialComp • axisN
  if magSq radialProj < eps * eps then none else some radialProj

/-- `cylinder::hit_curved_surface` (object.cpp, lines 272-306). -/
def cylHitCurved (cy : Cylinder) (r : Ray) (tMin : ℝ) (tMax : EReal) (rec : HitRecord) :
    Bool × HitRecord :=
  let rc := r.orig - cy.center
  let dr := r.dir
  let q := cylinderQuad rc dr cy.axisN cy.radius
  match chooseRoot q tMin tMax with
  | none => (false, rec)
  | some t =>
    let point := rayAt r t
    if withinCaps point cy.center cy.axisN cy.height then
      match outwardNormalAt point cy.center cy.axisN with
      | none => (false, rec)
      | some n =>
        (true,
          { point := point, normal := if dot dr n < 0 then n else -n,
            matPtr := some cy.mat, t := t,
            frontFace := if dot dr n < 0 then true else false })
    else (false, rec)

/-- `cap_params` of object.hpp. -/
structure CapParams where
  center : Vec
  normal : Vec

/-- The hit record `cylinder::hit_cap` writes for parameter `t`. -/
def capRecordAt (cy : Cylinder) (r : Ray) (cap : CapParams) (t : ℝ) : HitRecord :=
  let point := rayAt r t
  let ff : Prop := dot r.dir cap.normal < 0
  { point := point, normal := if ff then cap.normal else -cap.normal,
    matPtr := some cy.mat, t := t, frontFace := if ff then true else false }

/-- `cylinder::hit_cap` (object.cpp, lines 230-269). -/
def cylHitCap (cy : Cylinder) (r : Ray) (cap : CapParams) (rmin : ℝ) (rmax : EReal)
    (rec : HitRecord) : Bool × HitRecord :=
  let dr := r.dir
  let denom := dot dr cap.normal
  if |denom| < epsParallel then (false, rec)
  else
    let t := dot (cap.center - r.orig) cap.normal / denom
    let effMin := max rmin minHitDistance
    if t < effMin ∨ rmax < (t : EReal) then (false, rec)
    else
      let point := rayAt r t
      let vcp := point - cap.center
      let axialComp := dot vcp cap.normal
      let radialVec := vcp - axialComp • cap.normal
      if magSq radialVec > cy.radius * cy.radius then (false, rec)
      else (true, capRecordAt cy r cap t)

/-- `cylinder::hit` (object.cpp, lines 199-227): curved wall, then top
cap, then bottom cap, each with the upper bound tightened to the best
`t` so far; the caps share one default-initialised temporary record. -/
def cylHit (cy : Cylinder) (r : Ray) (tMin : ℝ) (tMax : EReal) (rec : HitRecord) :
    Bool × HitRecord :=
  let s1 := cylHitCurved cy r tMin tMax rec
  let closest1 : EReal := if s1.1 then (s1.2.t : EReal) else tMax
  let top := cy.center + (cy.height / 2) • cy.axisN
  let s2 := cylHitCap cy r ⟨top, cy.axisN⟩ tMin closest1 hitRecordDefault
  let rec2 := if s2.1 then s2.2 else s1.2
  let closest2 : EReal := if s2.1 then (s2.2.t : EReal) else closest1
  let bottom := cy.center - (cy.height / 2) • cy.axisN
  let s3 := cylHitCap cy r ⟨bottom, -cy.axisN⟩ tMin closest2 s2.2
  let rec3 := if s3.1 then s3.2 else rec2
  (s1.1 || s2.1 || s3.1, rec3)

/-- Primitive: the closed sum of the two `object` subclasses. -/
inductive Obj where
  | sph (s : Sphere)
  | cyl (c : Cylinder)

/-- Virtual dispatch of `object::hit`. -/
def objHit : Obj → Ray → ℝ → EReal → HitRecord → Bool × HitRecord
  | .sph s => sphereHit s
  | .cyl c => cylHit c

/-- Scene (scene.hpp): the named material map and the ordered
primitive list. -/
structure Scene where
  mats : List (String × Material)
  objs : List Obj

/-- The loop of `scene::hit`: one shared temporary record, a shrinking
upper bound, and the result record overwritten on every success. -/
def sceneHitAux (r : Ray) (tMin : ℝ) :
    List Obj → EReal → Bool → HitRecord → HitRecord → Bool × HitRecord
  | [], _, found, _, rec => (found, rec)
  | o :: rest, closest, found, temp, rec =>
    let s := objHit o r tMin closest temp
    if s.1 then sceneHitAux r tMin rest (s.2.t : EReal) true s.2 s.2
    else sceneHitAux r tMin rest closest found s.2 rec

/-- `scene::hit` (scene.cpp, lines 28-43). -/
def sceneHit (scn : Scene) (r : Ray) (tMin : ℝ) (tMax : EReal) (rec : HitRecord) :
    Bool × HitRecord :=
  sceneHitAux r tMin scn.objs tMax false hitRecordDefault rec

/-! Proof infrastructure: every `hit` routine above is shown to be a
threshold function of the upper bound — there is one canonical candidate
record, independent of `t_max`, and the routine succeeds exactly when the
candidate's `t` is below the bound.  The following definitions build
those canonical candidates; they are not source embeddings. -/

/-- Keep a canonical candidate only when its `t` is below the bound. -/
def filt (β : EReal) : Option HitRecord → Option HitRecord
  | some ρ => if (ρ.t : EReal) ≤ β then some ρ else none
  | none => none

/-- The `(bool, record)` pair a hit routine returns, phrased through the
canonical candidate. -/
def hitOf (can : Option HitRecord) (β : EReal) (rec : HitRecord) : Bool × HitRecord :=
  match filt β can with
  | some ρ => (true, ρ)
  | none => (false, rec)

/-- The `t` of a canonical candidate, `⊤` when there is none. -/
def tOf : Option HitRecord → EReal
  | some ρ => (ρ.t : EReal)
  | none => ⊤

/-- One tightening stage: adopt the new candidate when its `t` is within
the best `t` so far. -/
def stageCan (prev cn : Option HitRecord) : Option HitRecord :=
  match cn with
  | none => prev
  | some τ => if (τ.t : EReal) ≤ tOf prev then some τ else prev

/-- Bound-free core of `choose_root`: the root that would be selected
under an infinite upper bound. -/
def canRoot (q : Quad) (rmin : ℝ) : Option ℝ :=
  let disc := q.b * q.b - 4 * q.a * q.c
  if disc < 0 then none
  else
    let sqrtDisc := Real.sqrt disc
    let twoA := 2 * q.a
    let effMin := max rmin minHitDistance
    let t1 := (-q.b - sqrtDisc) / twoA
    if effMin ≤ t1 then some t1
    else
      let t2 := (-q.b + sqrtDisc) / twoA
      if effMin ≤ t2 then some t2 else none

/-- Canonical candidate of `sphere::hit`. -/
def canSphere (s : Sphere) (r : Ray) (tMin : ℝ) : Option HitRecord :=
  let rc := s.center - r.orig
  let dr := r.dir
  (canRoot ⟨dot dr dr, -2 * dot dr rc, dot rc rc - s.radius * s.radius⟩ tMin).map
    (sphereRecordAt s r)

/-- Canonical candidate of `cylinder::hit_curved_surface`. -/
def canCurved (cy : Cylinder) (r : Ray) (tMin : ℝ) : Option HitRecord :=
  let rc := r.orig - cy.center
  let dr := r.dir
  let q := cylinderQuad rc dr cy.axisN cy.radius
  match canRoot q tMin with
  | none => none
  | some t =>
    let point := rayAt r t
    if withinCaps point cy.center cy.axisN cy.height then
      match outwardNormalAt point cy.center cy.axisN with
      | none => none
      | some n =>
        some { point := point, normal := if dot dr n < 0 then n else -n,
               matPtr := some cy.mat, t := t,
               frontFace := if dot dr n < 0 then true else false }
    else none

/-- Canonical candidate of `cylinder::hit_cap`. -/
def canCap (cy : Cylinder) (r : Ray) (cap : CapParams) (rmin : ℝ) : Option HitRecord :=
  let dr := r.dir
  let denom := dot dr cap.normal
  if |denom| < epsParallel then none
  else
    let t := dot (cap.center - r.orig) cap.normal / denom
    let effMin := max rmin minHitDistance
    if t < effMin then none
    else
      let point := rayAt r t
      let vcp := point - cap.center
      let axialComp := dot vcp cap.normal
      let radialVec := vcp - axialComp • cap.normal
      if magSq radialVec > cy.radius * cy.radius then none
      else some (capRecordAt cy r cap t)

/-- Canonical candidate of `cylinder::hit`: the three surface candidates
staged in program order. -/
def canCyl (cy : Cylinder) (r : Ray) (tMin : ℝ) : Option HitRecord :=
  stageCan
    (stageCan (canCurved cy r tMin)
      (canCap cy r ⟨cy.center + (cy.height / 2) • cy.axisN, cy.axisN⟩ tMin))
    (canCap cy r ⟨cy.center - (cy.height / 2) • cy.axisN, -cy.axisN⟩ tMin)

/-- Canonical candidate of `object::hit`. -/
def canObj : Obj → Ray → ℝ → Option HitRecord
  | .sph s => fun r tMin => canSphere s r tMin
  | .cyl c => fun r tMin => canCyl c r tMin

/-- Canonical candidate of the `scene::hit` loop, folded from `acc`. -/
def canList (r : Ray) (tMin : ℝ) (objs : List Obj) (acc : Option HitRecord) :
    Option HitRecord :=
  objs.foldl (fun a o => stageCan a (canObj o r tMin)) acc

/-- Canonical candidate of `scene::hit`. -/
def canScene (scn : Scene) (r : Ray) (tMin : ℝ) : Option HitRecord :=
  canList r tMin scn.objs none

/-- `std::clamp` on doubles. -/
def clampR (v lo hi : ℝ) : ℝ := if v < lo then lo else if hi < v then hi else v

/-- `color::apply_gamma_correction` (color.cpp): `pow(value, 1/gamma)`
with negative inputs mapped to 0. -/
def applyGammaCorrection (value gamma : ℝ) : ℝ :=
  if value < 0 then 0 else value ^ (1 / gamma)

/-- `color::to_discrete` (color.cpp): `static_cast<uint8_t>(value * 255.0)`;
for the `value * 255 ∈ [0, 255]` range actually used the cast truncates
toward zero, i.e. takes the floor. -/
def toDiscrete (value : ℝ) : ℕ := (⌊value * 255⌋).toNat

/-- `color::to_discrete_r` (color.cpp, lines 10-14); `g`/`b` differ only
in the component read. -/
def toDiscreteR (rgb : Vec) (gamma : ℝ) : ℕ :=
  toDiscrete (applyGammaCorrection (clampR rgb.x 0 1) gamma)

/-- Deterministic model of `std::mt19937_64` together with the
distribution adaptors: an abstract pre-drawn stream and a position. -/
structure RNG where
  stream : ℕ → ℝ
  pos : ℕ

/-- One draw of `std::uniform_real_distribution(lo, hi)` from the
abstract stream (the exact distribution mapping is irrelevant to the
claims; only the advancing state is). -/
def drawUniform (lo hi : ℝ) (g : RNG) : ℝ × RNG :=
  (lo + (hi - lo) * g.stream g.pos, ⟨g.stream, g.pos + 1⟩)

/-- `random_vector_components` (material.cpp): three draws from
`Uniform(-1, 1)`. -/
def randomVectorComponents (g : RNG) : Vec × RNG :=
  let p1 := drawUniform (-1) 1 g
  let p2 := drawUniform (-1) 1 p1.2
  let p3 := drawUniform (-1) 1 p2.2
  (⟨p1.1, p2.1, p3.1⟩, p3.2)

/-- `random_diffusion_vector` (material.cpp): three draws from
`Uniform(-diffusion, diffusion)`. -/
def randomDiffusionVector (g : RNG) (diffusion : ℝ) : Vec × RNG :=
  let p1 := drawUniform (-diffusion) diffusion g
  let p2 := drawUniform (-diffusion) diffusion p1.2
  let p3 := drawUniform (-diffusion) diffusion p2.2
  (⟨p1.1, p2.1, p3.1⟩, p3.2)

/-- `scatter_result` of material.hpp. -/
structure ScatterResult where
  scattered : Bool
  attenuation : Vec

/-- Virtual dispatch of `material::scatter` (material.cpp).  The result
is `none` when the C++ code would throw (normalising a near-zero vector,
or constructing the scattered ray from a near-zero direction); the RNG
is threaded exactly as the `std::mt19937_64 &` parameter is. -/
def scatterM : Material → Ray → HitRecord → RNG → Option (ScatterResult × Ray) × RNG
  | .matte refl, _, rec, g =>
    let p := randomVectorComponents g
    let d0 := rec.normal + p.1
    let d := if nearZero d0 then rec.normal else d0
    ((rayMk rec.point d).map fun sc => (⟨true, refl⟩, sc), p.2)
  | .metal refl diffusion, rIn, rec, g =>
    let reflected := rIn.dir - (2 * dot rIn.dir rec.normal) • rec.normal
    match normalizedOpt reflected with
    | none => (none, g)
    | some reflectedHat =>
      let p := randomDiffusionVector g diffusion
      ((rayMk rec.point (reflectedHat + p.1)).map fun sc => (⟨true, refl⟩, sc), p.2)
  | .refractive ior, rIn, rec, g =>
    match normalizedOpt rIn.dir with
    | none => (none, g)
    | some u =>
      let ratio := if rec.frontFace then 1 / ior else ior
      let cosTheta := min (dot (-u) rec.normal) 1
      let sinTheta := Real.sqrt (1 - cosTheta * cosTheta)
      let direction :=
        if ratio * sinTheta > 1 then
          u - (2 * dot u rec.normal) • rec.normal
        else
          let rOutPerp := ratio • (u + cosTheta • rec.normal)
          let parallelMagSq := max 0 (1 - magSq rOutPerp)
          rOutPerp + (-Real.sqrt parallelMagSq) • rec.normal
      ((rayMk rec.point direction).map fun sc => (⟨true, ⟨1, 1, 1⟩⟩, sc), g)

/-- The recursive shader common to `PixelRenderer::trace_ray`
(par/src/application.cpp) and `ray_color` (soa/src/application.cpp);
the two differ only in the `min_t` constant, passed here as `minT`.
Depth is a natural number (the renderer calls it with `max_depth > 0`
and the code's guard is `depth <= 0`).  `none` models an escaping
exception. -/
def traceWith (minT : ℝ) (scn : Scene) (bgLight bgDark : Vec) :
    ℕ → Ray → RNG → Option (Vec × RNG)
  | 0, _, g => some (⟨0, 0, 0⟩, g)
  | d + 1, r, g =>
    let s := sceneHit scn r minT ⊤ hitRecordDefault
    if s.1 then
      match s.2.matPtr with
      | some m =>
        match scatterM m r s.2 g with
        | (some p, g1) =>
          if p.1.scattered then
            match traceWith minT scn bgLight bgDark d p.2 g1 with
            | some q => some (cmul p.1.attenuation q.1, q.2)
            | none => none
          else some (⟨0, 0, 0⟩, g1)
        | (none, _) => none
      | none => some (⟨0, 0, 0⟩, g)
    else
      match normalizedOpt r.dir with
      | none => none
      | some u =>
        let t := 0.5 * (u.y + 1)
        some ((1 - t) • bgLight + t • bgDark, g)

/-- `PixelRenderer::trace_ray` (par/src/application.cpp, lines 132-158):
`min_t = 1e-3`. -/
def traceRay (scn : Scene) (bgLight bgDark : Vec) : ℕ → Ray → RNG → Option (Vec × RNG) :=
  traceWith 1e-3 scn bgLight bgDark

/-- `ray_color` (soa/src/application.cpp): `min_t = 1e-8`. -/
def rayColor (scn : Scene) (bgLight bgDark : Vec) : ℕ → Ray → RNG → Option (Vec × RNG) :=
  traceWith 1e-8 scn bgLight bgDark

end

/-! ### The text-file subsystems, embedded computably (`ℚ` for `double`) -/

/-- The characters `" \t\r\n"` trimmed by `trim_copy` (config.cpp). -/
def isTrimChar (c : Char) : Bool := c = ' ' || c = '\t' || c = '\r' || c = '\n'

/-- The whitespace set of `operator>>` on an `istringstream` (`std::isspace`). -/
def isWsChar (c : Char) : Bool :=
  c = ' ' || c = '\t' || c = '\n' || c = '\x0b' || c = '\x0c' || c = '\r'

/-- `trim_copy` (config.cpp, lines 17-24). -/
def trimCopy (s : String) : String :=
  String.mk (((s.data.dropWhile fun c => isTrimChar c).reverse.dropWhile fun c =>
    isTrimChar c).reverse)

/-- Maximal non-whitespace runs of a character list (the accumulator
holds the current token reversed). -/
def tokenizeAux : List Char → List Char → List (List Char)
  | [], [] => []
  | [], cur => [cur.reverse]
  | c :: rest, cur =>
    if isWsChar c then
      if cur = [] then tokenizeAux rest [] else cur.reverse :: tokenizeAux rest []
    else tokenizeAux rest (c :: cur)

/-- `split_ws` (config.cpp and scene_parser.cpp): the whitespace-separated
tokens exactly as repeated `iss >> tok` produces them. -/
def splitWs (s : String) : List String :=
  (tokenizeAux s.data []).map fun cs => String.mk cs

/-- Strip one trailing `:` from a key or tag
(`if (!key.empty() and key.back() == ':') key.pop_back()`). -/
def stripColon (tok : String) : String :=
  match tok.data.getLast? with
  | some ':' => String.mk tok.data.dropLast
  | _ => tok

/-- Space-joined concatenation (the `extra` accumulation loop of
`check_exact_size`). -/
def joinSpaces : List String → String
  | [] => ""
  | [t] => t
  | t :: rest => t ++ " " ++ joinSpaces rest

/-- Digit run folded to a natural number. -/
def digitsToNat (ds : List Char) : ℕ :=
  ds.foldl (fun a c => a * 10 + (c.toNat - '0'.toNat)) 0

/-- The leading digit run of a token, `none` when there is none
(`std::stoi`-family prefix parsing; trailing characters are ignored). -/
def leadingNat (cs : List Char) : Option ℕ :=
  let ds := cs.takeWhile fun c => c.isDigit
  if ds = [] then none else some (digitsToNat ds)

/-- Model of `std::stoi`: optional sign, then a digit run. -/
def stoiM (s : String) : Option Int :=
  match s.data with
  | '-' :: rest => (leadingNat rest).map fun n => -(n : Int)
  | '+' :: rest => (leadingNat rest).map fun n => (n : Int)
  | cs => (leadingNat cs).map fun n => (n : Int)

/-- Model of `std::stoull` restricted to plain digit runs. -/
def stoullM (s : String) : Option ℕ := leadingNat s.data

/-- Fractional digit run read as a rational in `[0, 1)`. -/
def fracOfDigits (ds : List Char) : ℚ :=
  (digitsToNat ds : ℚ) / ((10 : ℚ) ^ ds.length)

/-- Unsigned decimal prefix `digits[.digits]` as a rational; `none` when
no digit is present. -/
def decPrefix (cs : List Char) : Option ℚ :=
  let ds1 := cs.takeWhile fun c => c.isDigit
  let rest := cs.drop ds1.length
  match rest with
  | '.' :: tl =>
    let ds2 := tl.takeWhile fun c => c.isDigit
    if ds1 = [] ∧ ds2 = [] then none
    else some ((digitsToNat ds1 : ℚ) + fracOfDigits ds2)
  | _ => if ds1 = [] then none else some (digitsToNat ds1 : ℚ)

/-- Model of `std::stod` on the plain decimal subset actually used by the
config and scene files (sign, digits, optional fraction). -/
def stodM (s : String) : Option ℚ :=
  match s.data with
  | '-' :: rest => (decPrefix rest).map fun q => -q
  | '+' :: rest => decPrefix rest
  | cs => decPrefix cs

/-- Rational 3-vector used by the computable config/scene embeddings. -/
structure QVec where
  x : ℚ
  y : ℚ
  z : ℚ
deriving DecidableEq

/-- `epsilon = 1e-8` as a rational (for `is_near_zero` on parsed data). -/
def qEps : ℚ := 1 / 100000000

/-- `vector::is_near_zero` on parsed (rational) data. -/
def qvNearZero (v : QVec) : Prop :=
  (-qEps < v.x ∧ v.x < qEps) ∧ (-qEps < v.y ∧ v.y < qEps) ∧ (-qEps < v.z ∧ v.z < qEps)

instance (v : QVec) : Decidable (qvNearZero v) := by
  unfold qvNearZero; infer_instance

/-- `config` of config.hpp with its default member values. -/
structure Config where
  aspectW : Int := 16
  aspectH : Int := 9
  imageWidth : Int := 1920
  gamma : ℚ := 11 / 5
  cameraPosition : QVec := ⟨0, 0, -10⟩
  cameraTarget : QVec := ⟨0, 0, 0⟩
  cameraNorth : QVec := ⟨0, 1, 0⟩
  fieldOfView : ℚ := 90
  samplesPerPixel : Int := 20
  maxDepth : Int := 5
  materialRngSeed : ℕ := 13
  rayRngSeed : ℕ := 19
  backgroundDarkColor : QVec := ⟨1 / 4, 1 / 2, 1⟩
  backgroundLightColor : QVec := ⟨1, 1, 1⟩

/-- The default-constructed `config`. -/
def configDefault : Config := {}

/-- `config::set_aspect_ratio`. -/
def setAspectRatio (cfg : Config) (w h : Int) : Except String Config :=
  if w ≤ 0 ∨ h ≤ 0 then .error "Error: Invalid value for key: [aspect_ratio:]"
  else .ok { cfg with aspectW := w, aspectH := h }

/-- `config::set_image_width`. -/
def setImageWidth (cfg : Config) (w : Int) : Except String Config :=
  if w ≤ 0 then .error "Error: Invalid value for key: [image_width:]"
  else .ok { cfg with imageWidth := w }

/-- `config::set_gamma`. -/
def setGamma (cfg : Config) (g : ℚ) : Except String Config :=
  if g ≤ 0 then .error "Error: Invalid value for key: [gamma:]"
  else .ok { cfg with gamma := g }

/-- `config::set_camera_north`. -/
def setCameraNorth (cfg : Config) (north : QVec) : Except String Config :=
  if qvNearZero north then .error "Error: Invalid value for key: [camera_north:]"
  else .ok { cfg with cameraNorth := north }

/-- `config::set_field_of_view`. -/
def setFieldOfView (cfg : Config) (fov : ℚ) : Except String Config :=
  if fov ≤ 0 ∨ 180 ≤ fov then .error "Error: Invalid value for key: [field_of_view:]"
  else .ok { cfg with fieldOfView := fov }

/-- `config::set_samples_per_pixel`. -/
def setSamplesPerPixel (cfg : Config) (n : Int) : Except String Config :=
  if n ≤ 0 then .error "Error: Invalid value for key: [samples_per_pixel:]"
  else .ok { cfg with samplesPerPixel := n }

/-- `config::set_max_depth`. -/
def setMaxDepth (cfg : Config) (d : Int) : Except String Config :=
  if d ≤ 0 then .error "Error: Invalid value for key: [max_depth:]"
  else .ok { cfg with maxDepth := d }

/-- `config::set_material_rng_seed`. -/
def setMaterialRngSeed (cfg : Config) (s : ℕ) : Except String Config :=
  if s = 0 then .error "Error: Invalid value for key: [material_rng_seed:]"
  else .ok { cfg with materialRngSeed := s }

/-- `config::set_ray_rng_seed`. -/
def setRayRngSeed (cfg : Config) (s : ℕ) : Except String Config :=
  if s = 0 then .error "Error: Invalid value for key: [ray_rng_seed:]"
  else .ok { cfg with rayRngSeed := s }

/-- Shared component-range check of the two background color setters. -/
def colorInRange (c : QVec) : Prop :=
  0 ≤ c.x ∧ c.x ≤ 1 ∧ 0 ≤ c.y ∧ c.y ≤ 1 ∧ 0 ≤ c.z ∧ c.z ≤ 1

instance (c : QVec) : Decidable (colorInRange c) := by
  unfold colorInRange; infer_instance

/-- `config::set_background_dark_color`. -/
def setBackgroundDarkColor (cfg : Config) (c : QVec) : Except String Config :=
  if ¬ colorInRange c then .error "Error: Invalid value for key: [background_dark_color:]"
  else .ok { cfg with backgroundDarkColor := c }

/-- `config::set_background_light_color`. -/
def setBackgroundLightColor (cfg : Config) (c : QVec) : Except String Config :=
  if ¬ colorInRange c then .error "Error: Invalid value for key: [background_light_color:]"
  else .ok { cfg with backgroundLightColor := c }

/-- `std::stoi` lifted into the error monad; the thrown
`std::invalid_argument` is modelled as the error `"stoi"`. -/
def stoiE (s : String) : Except String Int :=
  match stoiM s with
  | some v => .ok v
  | none => .error "stoi"

/-- `std::stod` lifted into the error monad. -/
def stodE (s : String) : Except String ℚ :=
  match stodM s with
  | some v => .ok v
  | none => .error "stod"

/-- `std::stoull` lifted into the error monad. -/
def stoullE (s : String) : Except String ℕ :=
  match stoullM s with
  | some v => .ok v
  | none => .error "stoull"

/-- `handle_aspect_ratio` (config.cpp). -/
def handleAspectRatio (parts : List String) (cfg : Config) : Except String Config :=
  if parts.length ≠ 3 then .error "Error: Invalid value for key: [aspect_ratio:]"
  else do
    let w ← stoiE (parts.getD 1 "")
    let h ← stoiE (parts.getD 2 "")
    setAspectRatio cfg w h

/-- `handle_image_width` (config.cpp). -/
def handleImageWidth (parts : List String) (cfg : Config) : Except String Config :=
  if parts.length ≠ 2 then .error "Error: Invalid value for key: [image_width:]"
  else do
    let w ← stoiE (parts.getD 1 "")
    setImageWidth cfg w

/-- `handle_gamma` (config.cpp). -/
def handleGamma (parts : List String) (cfg : Config) : Except String Config :=
  if parts.length ≠ 2 then .error "Error: Invalid value for key: [gamma:]"
  else do
    let g ← stodE (parts.getD 1 "")
    setGamma cfg g

/-- Shared 3-component parse of the camera/background handlers. -/
def parseQVec3 (parts : List String) : Except String QVec := do
  let a ← stodE (parts.getD 1 "")
  let b ← stodE (parts.getD 2 "")
  let c ← stodE (parts.getD 3 "")
  .ok ⟨a, b, c⟩

/-- `handle_camera_position` (config.cpp). -/
def handleCameraPosition (parts : List String) (cfg : Config) : Except String Config :=
  if parts.length ≠ 4 then .error "Error: Invalid value for key: [camera_position:]"
  else do
    let v ← parseQVec3 parts
    .ok { cfg with cameraPosition := v }

/-- `handle_camera_target` (config.cpp). -/
def handleCameraTarget (parts : List String) (cfg : Config) : Except String Config :=
  if parts.length ≠ 4 then .error "Error: Invalid value for key: [camera_target:]"
  else do
    let v ← parseQVec3 parts
    .ok { cfg with cameraTarget := v }

/-- `handle_camera_north` (config.cpp). -/
def handleCameraNorth (parts : List String) (cfg : Config) : Except String Config :=
  if parts.length ≠ 4 then .error "Error: Invalid value for key: [camera_north:]"
  else do
    let v ← parseQVec3 parts
    setCameraNorth cfg v

/-- `handle_field_of_view` (config.cpp). -/
def handleFieldOfView (parts : List String) (cfg : Config) : Except String Config :=
  if parts.length ≠ 2 then .error "Error: Invalid value for key: [field_of_view:]"
  else do
    let fov ← stodE (parts.getD 1 "")
    setFieldOfView cfg fov

/-- `handle_samples_per_pixel` (config.cpp). -/
def handleSamplesPerPixel (parts : List String) (cfg : Config) : Except String Config :=
  if parts.length ≠ 2 then .error "Error: Invalid value for key: [samples_per_pixel:]"
  else do
    let n ← stoiE (parts.getD 1 "")
    setSamplesPerPixel cfg n

/-- `handle_max_depth` (config.cpp). -/
def handleMaxDepth (parts : List String) (cfg : Config) : Except String Config :=
  if parts.length ≠ 2 then .error "Error: Invalid value for key: [max_depth:]"
  else do
    let d ← stoiE (parts.getD 1 "")
    setMaxDepth cfg d

/-- `handle_material_rng_seed` (config.cpp). -/
def handleMaterialRngSeed (parts : List String) (cfg : Config) : Except String Config :=
  if parts.length ≠ 2 then .error "Error: Invalid value for key: [material_rng_seed:]"
  else do
    let s ← stoullE (parts.getD 1 "")
    setMaterialRngSeed cfg s

/-- `handle_ray_rng_seed` (config.cpp). -/
def handleRayRngSeed (parts : List String) (cfg : Config) : Except String Config :=
  if parts.length ≠ 2 then .error "Error: Invalid value for key: [ray_rng_seed:]"
  else do
    let s ← stoullE (parts.getD 1 "")
    setRayRngSeed cfg s

/-- `handle_background_dark_color` (config.cpp). -/
def handleBackgroundDarkColor (parts : List String) (cfg : Config) : Except String Config :=
  if parts.length ≠ 4 then .error "Error: Invalid value for key: [background_dark_color:]"
  else do
    let v ← parseQVec3 parts
    setBackgroundDarkColor cfg v

/-- `handle_background_light_color` (config.cpp). -/
def handleBackgroundLightColor (parts : List String) (cfg : Config) : Except String Config :=
  if parts.length ≠ 4 then .error "Error: Invalid value for key: [background_light_color:]"
  else do
    let v ← parseQVec3 parts
    setBackgroundLightColor cfg v

/-- The handler map of `load_config` (config.cpp, lines 296-312):
exactly thirteen recognised keys. -/
def findHandler (key : String) : Option (List String → Config → Except String Config) :=
  if key = "aspect_ratio" then some handleAspectRatio
  else if key = "image_width" then some handleImageWidth
  else if key = "gamma" then some handleGamma
  else if key = "camera_position" then some handleCameraPosition
  else if key = "camera_target" then some handleCameraTarget
  else if key = "camera_north" then some handleCameraNorth
  else if key = "field_of_view" then some handleFieldOfView
  else if key = "samples_per_pixel" then some handleSamplesPerPixel
  else if key = "max_depth" then some handleMaxDepth
  else if key = "material_rng_seed" then some handleMaterialRngSeed
  else if key = "ray_rng_seed" then some handleRayRngSeed
  else if key = "background_dark_color" then some handleBackgroundDarkColor
  else if key = "background_light_color" then some handleBackgroundLightColor
  else none

/-- `process_lines` (config.cpp, lines 163-191), over the list of lines
`std::getline` yields. -/
def processLines : List String → Config → Except String Config
  | [], cfg => .ok cfg
  | line :: rest, cfg =>
    let trimmed := trimCopy line
    if trimmed = "" then processLines rest cfg
    else
      match splitWs trimmed with
      | [] => processLines rest cfg
      | key0 :: tailParts =>
        let key := stripColon key0
        match findHandler key with
        | none => .error ("Error: Unknown configuration key: [" ++ key ++ ":]")
        | some h =>
          match h (key0 :: tailParts) cfg with
          | .ok cfg1 => processLines rest cfg1
          | .error e => .error e

/-! ### scene_parser.cpp, embedded computably -/

/-- Parse-level material (the arguments of the three constructors). -/
inductive PMaterial where
  | matte (reflectance : QVec)
  | metal (reflectance : QVec) (diffusion : ℚ)
  | refractive (ior : ℚ)
deriving DecidableEq

/-- Parse-level primitive (the arguments of the two constructors, with
the material resolved through the scene map). -/
inductive PObj where
  | sph (center : QVec) (radius : ℚ) (mat : PMaterial)
  | cyl (center : QVec) (radius : ℚ) (axis : QVec) (mat : PMaterial)
deriving DecidableEq

/-- Parse-level scene: the named material map and the object list. -/
structure PScene where
  mats : List (String × PMaterial) := []
  objs : List PObj := []
deriving DecidableEq

/-- The empty scene handed to `parse_scene_file`. -/
def psceneEmpty : PScene := {}

/-- `scene::get_material` (std::map lookup). -/
def getPMaterial (scn : PScene) (name : String) : Option PMaterial :=
  scn.mats.lookup name

/-- `materials[name] = mat` (std::map insert-or-assign). -/
def matsInsert (name : String) (m : PMaterial) :
    List (String × PMaterial) → List (String × PMaterial)
  | [] => [(name, m)]
  | (k, v) :: rest =>
    if k = name then (k, m) :: rest else (k, v) :: matsInsert name m rest

/-- `scene::add_material`. -/
def addPMaterial (scn : PScene) (name : String) (m : PMaterial) : PScene :=
  { scn with mats := matsInsert name m scn.mats }

/-- `scene::add_object`. -/
def addPObj (scn : PScene) (o : PObj) : PScene :=
  { scn with objs := scn.objs ++ [o] }

/-- `parse_vector` (scene_parser.cpp, lines 28-34). -/
def parsePQVec (parts : List String) (start : ℕ) : Except String QVec :=
  if parts.length ≤ start + 2 then .error "Insufficient vector components"
  else do
    let a ← stodE (parts.getD start "")
    let b ← stodE (parts.getD (start + 1) "")
    let c ← stodE (parts.getD (start + 2) "")
    .ok ⟨a, b, c⟩

/-- `validate_reflectance` (scene_parser.cpp, lines 37-49). -/
def validateReflectanceLine (refl : QVec) (mtype line : String) : Except String Unit :=
  if refl.x < 0 ∨ refl.x > 1 ∨ refl.y < 0 ∨ refl.y > 1 ∨ refl.z < 0 ∨ refl.z > 1 then
    .error ("Error: Invalid " ++ mtype ++ " material parameters\nLine: " ++ line)
  else .ok ()

/-- `check_exact_size` (scene_parser.cpp, lines 52-74). -/
def checkExactSize (parts : List String) (expected : ℕ) (etype line : String) :
    Except String Unit :=
  if parts.length < expected then
    .error ("Error: Invalid " ++ etype ++ " parameters\nLine: " ++ line)
  else if parts.length > expected then
    .error ("Error: Extra data after configuration value for key " ++ etype ++
      "\nExtra: " ++ joinSpaces (parts.drop expected) ++ "\nLine: " ++ line)
  else .ok ()

/-- `validate_material_unique` (scene_parser.cpp, lines 77-83). -/
def validateMaterialUnique (scn : PScene) (name line : String) : Except String Unit :=
  if (getPMaterial scn name).isSome then
    .error ("Error: Material with name [" ++ name ++ "] already exists\nLine: " ++ line)
  else .ok ()

/-- `parse_matte` (scene_parser.cpp, lines 87-98). -/
def parseMatte (parts : List String) (line : String) (scn : PScene) :
    Except String PScene := do
  let _ ← checkExactSize parts 5 "matte" line
  let name := parts.getD 1 ""
  let _ ← validateMaterialUnique scn name line
  let refl ← parsePQVec parts 2
  let _ ← validateReflectanceLine refl "matte" line
  .ok (addPMaterial scn name (.matte refl))

/-- `parse_metal` (scene_parser.cpp, lines 100-116). -/
def parseMetal (parts : List String) (line : String) (scn : PScene) :
    Except String PScene := do
  let _ ← checkExactSize parts 6 "metal" line
  let name := parts.getD 1 ""
  let _ ← validateMaterialUnique scn name line
  let refl ← parsePQVec parts 2
  let _ ← validateReflectanceLine refl "metal" line
  let diffusion ← stodE (parts.getD 5 "")
  if diffusion < 0 then
    .error ("Error: Invalid metal material parameters\nLine: " ++ line)
  else .ok (addPMaterial scn name (.metal refl diffusion))

/-- `parse_refractive` (scene_parser.cpp, lines 118-131). -/
def parseRefractive (parts : List String) (line : String) (scn : PScene) :
    Except String PScene := do
  let _ ← checkExactSize parts 3 "refractive" line
  let name := parts.getD 1 ""
  let _ ← validateMaterialUnique scn name line
  let ior ← stodE (parts.getD 2 "")
  if ior ≤ 0 then
    .error ("Error: Invalid refractive material parameters\nLine: " ++ line)
  else .ok (addPMaterial scn name (.refractive ior))

/-- `parse_sphere` (scene_parser.cpp, lines 135-153). -/
def parseSphereLine (parts : List String) (line : String) (scn : PScene) :
    Except String PScene := do
  let _ ← checkExactSize parts 6 "sphere" line
  let center ← parsePQVec parts 1
  let radius ← stodE (parts.getD 4 "")
  let matName := parts.getD 5 ""
  if radius ≤ 0 then
    .error ("Error: Invalid sphere parameters\nLine: " ++ line)
  else
    match getPMaterial scn matName with
    | none => .error ("Error: Material not found [" ++ matName ++ "]\nLine: " ++ line)
    | some m => .ok (addPObj scn (.sph center radius m))

/-- `parse_cylinder` (scene_parser.cpp, lines 155-178). -/
def parseCylinderLine (parts : List String) (line : String) (scn : PScene) :
    Except String PScene := do
  let _ ← checkExactSize parts 9 "cylinder" line
  let center ← parsePQVec parts 1
  let radius ← stodE (parts.getD 4 "")
  let axis ← parsePQVec parts 5
  let matName := parts.getD 8 ""
  if radius ≤ 0 then
    .error ("Error: Invalid cylinder parameters\nLine: " ++ line)
  else if qvNearZero axis then
    .error ("Error: Invalid cylinder parameters\nLine: " ++ line)
  else
    match getPMaterial scn matName with
    | none => .error ("Error: Material not found [" ++ matName ++ "]\nLine: " ++ line)
    | some m => .ok (addPObj scn (.cyl center radius axis m))

/-- One iteration of the `parse_scene_file` loop (scene_parser.cpp,
lines 192-224), for the line with 1-based number `lineNumber`. -/
def parseSceneLine (line : String) (lineNumber : ℕ) (scn : PScene) :
    Except String PScene :=
  match splitWs line with
  | [] => .ok scn
  | tag0 :: tailParts =>
    let tag := stripColon tag0
    let parts := tag0 :: tailParts
    if tag = "matte" then parseMatte parts line scn
    else if tag = "metal" then parseMetal parts line scn
    else if tag = "refractive" then parseRefractive parts line scn
    else if tag = "sphere" then parseSphereLine parts line scn
    else if tag = "cylinder" then parseCylinderLine parts line scn
    else
      .error ("Error on line " ++ toString lineNumber ++ ": Unknown scene entity [" ++
        tag ++ "]")

/-- The loop of `parse_scene_file` from 1-based line number `n + 1`. -/
def parseSceneFrom : List String → ℕ → PScene → Except String PScene
  | [], _, scn => .ok scn
  | line :: rest, n, scn =>
    match parseSceneLine line (n + 1) scn with
    | .ok scn1 => parseSceneFrom rest (n + 1) scn1
    | .error e => .error e

/-- `parse_scene_file` (scene_parser.cpp, lines 185-225), over the list
of lines `std::getline` yields. -/
def parseScene (lines : List String) : Except String PScene :=
  parseSceneFrom lines 0 psceneEmpty

/-- Does this scene line open with one of the three material tags and
name `n` in its second token (i.e. is it a material line defining `n`)? -/
def definesName (line n : String) : Bool :=
  match splitWs line with
  | tag0 :: name :: _ =>
    (stripColon tag0 == "matte" || stripColon tag0 == "metal" ||
      stripColon tag0 == "refractive") && name == n
  | _ => false

/-- Is `needle` an initial segment of `hay`? -/
def prefOf : List Char → List Char → Bool
  | [], _ => true
  | _ :: _, [] => false
  | a :: as, b :: bs => a = b && prefOf as bs

/-- Does `hay` contain `needle` as a contiguous segment? -/
def subIn (needle : List Char) : List Char → Bool
  | [] => prefOf needle []
  | c :: rest => prefOf needle (c :: rest) || subIn needle rest

/-- Substring containment on strings. -/
def strContains (hay needle : String) : Bool := subIn needle.data hay.data

/-! ## Lemmas and theorems -/

@[simp] lemma Vec.add_x (a b : Vec) : (a + b).x = a.x + b.x := rfl

@[simp] lemma Vec.add_y (a b : Vec) : (a + b).y = a.y + b.y := rfl

@[simp] lemma Vec.add_z (a b : Vec) : (a + b).z = a.z + b.z := rfl

@[simp] lemma Vec.sub_x (a b : Vec) : (a - b).x = a.x - b.x := rfl

@[simp] lemma Vec.sub_y (a b : Vec) : (a - b).y = a.y - b.y := rfl

@[simp] lemma Vec.sub_z (a b : Vec) : (a - b).z = a.z - b.z := rfl

@[simp] lemma Vec.neg_x (a : Vec) : (-a).x = -a.x := rfl

@[simp] lemma Vec.neg_y (a : Vec) : (-a).y = -a.y := rfl

@[simp] lemma Vec.neg_z (a : Vec) : (-a).z = -a.z := rfl

@[simp] lemma Vec.smul_x (s : ℝ) (a : Vec) : (s • a).x = a.x * s := rfl

@[simp] lemma Vec.smul_y (s : ℝ) (a : Vec) : (s • a).y = a.y * s := rfl

@[simp] lemma Vec.smul_z (s : ℝ) (a : Vec) : (s • a).z = a.z * s := rfl

@[ext] lemma Vec.ext {a b : Vec} (hx : a.x = b.x) (hy : a.y = b.y) (hz : a.z = b.z) :
    a = b := by
  cases a; cases b; simp_all

lemma Vec.eq_iff {a b : Vec} : a = b ↔ a.x = b.x ∧ a.y = b.y ∧ a.z = b.z := by
  constructor
  · rintro rfl; exact ⟨rfl, rfl, rfl⟩
  · rintro ⟨hx, hy, hz⟩; exact Vec.ext hx hy hz

lemma sqrt16 : Real.sqrt 16 = 4 := by
  rw [show (16 : ℝ) = 4 ^ 2 by norm_num, Real.sqrt_sq (by norm_num)]

lemma sqrt4 : Real.sqrt 4 = 2 := by
  rw [show (4 : ℝ) = 2 ^ 2 by norm_num, Real.sqrt_sq (by norm_num)]

lemma dot_self_nonneg (v : Vec) : 0 ≤ dot v v := by
  unfold dot; nlinarith [sq_nonneg v.x, sq_nonneg v.y, sq_nonneg v.z]

lemma roots_mono (b s a : ℝ) (ha : 0 ≤ a) (hs : 0 ≤ s) :
    (-b - s) / (2 * a) ≤ (-b + s) / (2 * a) := by
  rcases eq_or_lt_of_le ha with h | h
  · rw [← h]; norm_num
  · exact div_le_div_of_nonneg_right (by linarith) (by linarith) |>.trans_eq rfl

lemma chooseRoot_threshold (q : Quad) (hq : 0 ≤ q.a) (rmin : ℝ) (β : EReal) :
    chooseRoot q rmin β =
      match canRoot q rmin with
      | some t => if (t : EReal) ≤ β then some t else none
      | none => none := by
  simp only [chooseRoot, canRoot]
  by_cases hd : q.b * q.b - 4 * q.a * q.c < 0
  · simp [hd]
  · simp only [hd, if_false]
    have h12 : (-q.b - Real.sqrt (q.b * q.b - 4 * q.a * q.c)) / (2 * q.a) ≤
        (-q.b + Real.sqrt (q.b * q.b - 4 * q.a * q.c)) / (2 * q.a) :=
      roots_mono _ _ _ hq (Real.sqrt_nonneg _)
    set s := Real.sqrt (q.b * q.b - 4 * q.a * q.c)
    set e := max rmin minHitDistance
    set t1 := (-q.b - s) / (2 * q.a)
    set t2 := (-q.b + s) / (2 * q.a)
    by_cases h1 : e ≤ t1
    · by_cases hb : (t1 : EReal) ≤ β
      · simp [h1, hb]
      · have hb2 : ¬ ((t2 : EReal) ≤ β) := fun h =>
          hb (le_trans (EReal.coe_le_coe_iff.mpr h12) h)
        simp [h1, hb, hb2]
    · by_cases h2 : e ≤ t2
      · by_cases hb : (t2 : EReal) ≤ β <;> simp [h1, h2, hb]
      · simp [h1, h2]

@[simp] lemma sphereRecordAt_t (s : Sphere) (r : Ray) (t : ℝ) :
    (sphereRecordAt s r t).t = t := rfl

@[simp] lemma capRecordAt_t (cy : Cylinder) (r : Ray) (cap : CapParams) (t : ℝ) :
    (capRecordAt cy r cap t).t = t := rfl

lemma sphereHit_eq (s : Sphere) (r : Ray) (tMin : ℝ) (tMax : EReal) (rec : HitRecord) :
    sphereHit s r tMin tMax rec =
      match chooseRoot ⟨dot r.dir r.dir, -2 * dot r.dir (s.center - r.orig),
          dot (s.center - r.orig) (s.center - r.orig) - s.radius * s.radius⟩ tMin tMax with
      | some t => (true, sphereRecordAt s r t)
      | none => (false, rec) := by
  simp only [sphereHit, chooseRoot, inRangeE]
  split_ifs <;> rfl

lemma sphere_threshold (s : Sphere) (r : Ray) (tMin : ℝ) (tMax : EReal) (rec : HitRecord) :
    sphereHit s r tMin tMax rec = hitOf (canSphere s r tMin) tMax rec := by
  rw [sphereHit_eq, chooseRoot_threshold _ (dot_self_nonneg _)]
  simp only [canSphere, hitOf, filt]
  cases h : canRoot ⟨dot r.dir r.dir, -2 * dot r.dir (s.center - r.orig),
      dot (s.center - r.orig) (s.center - r.orig) - s.radius * s.radius⟩ tMin with
  | none => rfl
  | some t =>
    by_cases hb : (t : EReal) ≤ tMax <;> simp [hb]

lemma cap_threshold (cy : Cylinder) (r : Ray) (cap : CapParams) (rmin : ℝ) (β : EReal)
    (rec : HitRecord) :
    cylHitCap cy r cap rmin β rec = hitOf (canCap cy r cap rmin) β rec := by
  simp only [cylHitCap, canCap]
  by_cases h1 : |dot r.dir cap.normal| < epsParallel
  · simp [h1, hitOf, filt]
  · simp only [h1, if_false]
    set t := dot (cap.center - r.orig) cap.normal / dot r.dir cap.normal with ht
    by_cases h2 : t < max rmin minHitDistance
    · simp [h2, hitOf, filt]
    · by_cases h3 : β < (t : EReal)
      · have h3' : ¬ ((t : EReal) ≤ β) := not_le.mpr h3
        by_cases h4 : magSq ((rayAt r t - cap.center) -
            dot (rayAt r t - cap.center) cap.normal • cap.normal) >
            cy.radius * cy.radius <;>
          simp [h2, h3, h3', h4, hitOf, filt]
      · by_cases h4 : magSq ((rayAt r t - cap.center) -
            dot (rayAt r t - cap.center) cap.normal • cap.normal) >
            cy.radius * cy.radius <;>
          simp [h2, h3, not_lt.mp h3, h4, hitOf, filt]

lemma curved_threshold (cy : Cylinder) (r : Ray) (tMin : ℝ) (β : EReal) (rec : HitRecord) :
    cylHitCurved cy r tMin β rec = hitOf (canCurved cy r tMin) β rec := by
  have hq : 0 ≤ (cylinderQuad (r.orig - cy.center) r.dir cy.axisN cy.radius).a :=
    dot_self_nonneg _
  simp only [cylHitCurved, canCurved]
  rw [chooseRoot_threshold _ hq]
  cases h : canRoot (cylinderQuad (r.orig - cy.center) r.dir cy.axisN cy.radius) tMin with
  | none => simp [hitOf, filt]
  | some t =>
    by_cases hb : (t : EReal) ≤ β
    · simp only [hb, if_true]
      by_cases hw : withinCaps (rayAt r t) cy.center cy.axisN cy.height
      · cases hn : outwardNormalAt (rayAt r t) cy.center cy.axisN <;>
          simp [hw, hn, hitOf, filt, hb]
      · simp [hw, hitOf, filt]
    · simp only [hb, if_false]
      by_cases hw : withinCaps (rayAt r t) cy.center cy.axisN cy.height
      · cases hn : outwardNormalAt (rayAt r t) cy.center cy.axisN <;>
          simp [hw, hn, hitOf, filt, hb]
      · simp [hw, hitOf, filt]

lemma stage_main (β : EReal) (rec recA : HitRecord) (pS cn : Option HitRecord) :
    ((hitOf pS β rec).1 ||
        (hitOf cn (if (hitOf pS β rec).1 then ((hitOf pS β rec).2.t : EReal) else β) recA).1,
      if (hitOf cn (if (hitOf pS β rec).1 then ((hitOf pS β rec).2.t : EReal) else β) recA).1
      then (hitOf cn (if (hitOf pS β rec).1 then ((hitOf pS β rec).2.t : EReal) else β) recA).2
      else (hitOf pS β rec).2)
    = hitOf (stageCan pS cn) β rec := by
  cases cn with
  | none => cases pS with
    | none => simp [hitOf, filt, stageCan]
    | some ρ =>
      by_cases hρ : (ρ.t : EReal) ≤ β <;> simp [hitOf, filt, stageCan, hρ]
  | some τ =>
    cases pS with
    | none =>
      by_cases hτ : (τ.t : EReal) ≤ β <;>
        simp [hitOf, filt, stageCan, tOf, hτ, le_top]
    | some ρ =>
      by_cases hρ : (ρ.t : EReal) ≤ β
      · by_cases hτρ : (τ.t : EReal) ≤ (ρ.t : EReal)
        · have hτβ : (τ.t : EReal) ≤ β := le_trans hτρ hρ
          simp [hitOf, filt, stageCan, tOf, hρ, hτρ, hτβ]
        · simp [hitOf, filt, stageCan, tOf, hρ, hτρ]
      · by_cases hτρ : (τ.t : EReal) ≤ (ρ.t : EReal)
        · by_cases hτβ : (τ.t : EReal) ≤ β <;>
            simp [hitOf, filt, stageCan, tOf, hρ, hτρ, hτβ]
        · have hτβ : ¬ (τ.t : EReal) ≤ β := fun h =>
            hτρ (le_trans h (le_of_not_le hρ))
          simp [hitOf, filt, stageCan, tOf, hρ, hτρ, hτβ]

lemma stage_closest (β : EReal) (rec recA : HitRecord) (pS cn : Option HitRecord) :
    (if (hitOf cn (if (hitOf pS β rec).1 then ((hitOf pS β rec).2.t : EReal) else β) recA).1
     then ((hitOf cn (if (hitOf pS β rec).1 then ((hitOf pS β rec).2.t : EReal) else β) recA).2.t : EReal)
     else (if (hitOf pS β rec).1 then ((hitOf pS β rec).2.t : EReal) else β))
    = (if (hitOf (stageCan pS cn) β rec).1 then ((hitOf (stageCan pS cn) β rec).2.t : EReal) else β) := by
  cases cn with
  | none => cases pS with
    | none => simp [hitOf, filt, stageCan]
    | some ρ =>
      by_cases hρ : (ρ.t : EReal) ≤ β <;> simp [hitOf, filt, stageCan, hρ]
  | some τ =>
    cases pS with
    | none =>
      by_cases hτ : (τ.t : EReal) ≤ β <;>
        simp [hitOf, filt, stageCan, tOf, hτ, le_top]
    | some ρ =>
      by_cases hρ : (ρ.t : EReal) ≤ β
      · by_cases hτρ : (τ.t : EReal) ≤ (ρ.t : EReal)
        · have hτβ : (τ.t : EReal) ≤ β := le_trans hτρ hρ
          simp [hitOf, filt, stageCan, tOf, hρ, hτρ, hτβ]
        · simp [hitOf, filt, stageCan, tOf, hρ, hτρ]
      · by_cases hτρ : (τ.t : EReal) ≤ (ρ.t : EReal)
        · by_cases hτβ : (τ.t : EReal) ≤ β <;>
            simp [hitOf, filt, stageCan, tOf, hρ, hτρ, hτβ]
        · have hτβ : ¬ (τ.t : EReal) ≤ β := fun h =>
            hτρ (le_trans h (le_of_not_le hρ))
          simp [hitOf, filt, stageCan, tOf, hρ, hτρ, hτβ]

lemma cylHit_threshold (cy : Cylinder) (r : Ray) (tMin : ℝ) (β : EReal) (rec : HitRecord) :
    cylHit cy r tMin β rec = hitOf (canCyl cy r tMin) β rec := by
  simp only [cylHit, canCyl]
  rw [curved_threshold, cap_threshold, cap_threshold]
  set S0 := canCurved cy r tMin with hS0
  set T := canCap cy r ⟨cy.center + (cy.height / 2) • cy.axisN, cy.axisN⟩ tMin with hT
  set B := canCap cy r ⟨cy.center - (cy.height / 2) • cy.axisN, -cy.axisN⟩ tMin with hB
  have hm := stage_main β rec hitRecordDefault S0 T
  have hc := stage_closest β rec hitRecordDefault S0 T
  have hm1 : ((hitOf S0 β rec).1 ||
      (hitOf T (if (hitOf S0 β rec).1 then ((hitOf S0 β rec).2.t : EReal) else β)
        hitRecordDefault).1) = (hitOf (stageCan S0 T) β rec).1 :=
    congrArg Prod.fst hm
  have hm2 : (if (hitOf T (if (hitOf S0 β rec).1 then ((hitOf S0 β rec).2.t : EReal) else β)
        hitRecordDefault).1
      then (hitOf T (if (hitOf S0 β rec).1 then ((hitOf S0 β rec).2.t : EReal) else β)
        hitRecordDefault).2
      else (hitOf S0 β rec).2) = (hitOf (stageCan S0 T) β rec).2 :=
    congrArg Prod.snd hm
  have hfin := stage_main β rec
    ((hitOf T (if (hitOf S0 β rec).1 then ((hitOf S0 β rec).2.t : EReal) else β)
      hitRecordDefault).2) (stageCan S0 T) B
  rw [hm1, hc, hm2]
  exact hfin

lemma objHit_threshold (o : Obj) (r : Ray) (tMin : ℝ) (β : EReal) (rec : HitRecord) :
    objHit o r tMin β rec = hitOf (canObj o r tMin) β rec := by
  cases o with
  | sph s => exact sphere_threshold s r tMin β rec
  | cyl c => exact cylHit_threshold c r tMin β rec

lemma sceneAux_threshold (r : Ray) (tMin : ℝ) :
    ∀ (objs : List Obj) (S : Option HitRecord) (β : EReal) (temp rec : HitRecord),
    sceneHitAux r tMin objs (if (hitOf S β rec).1 then ((hitOf S β rec).2.t : EReal) else β)
      (hitOf S β rec).1 temp (hitOf S β rec).2
    = hitOf (canList r tMin objs S) β rec := by
  intro objs
  induction objs with
  | nil =>
    intro S β temp rec
    simp [sceneHitAux, canList]
  | cons o rest ih =>
    intro S β temp rec
    simp only [sceneHitAux, canList, List.foldl_cons]
    rw [objHit_threshold]
    have hm := stage_main β rec temp S (canObj o r tMin)
    have hc := stage_closest β rec temp S (canObj o r tMin)
    have hm1 := congrArg Prod.fst hm
    have hm2 := congrArg Prod.snd hm
    simp only at hm1 hm2
    have key := ih (stageCan S (canObj o r tMin)) β
      ((hitOf (canObj o r tMin)
        (if (hitOf S β rec).1 then ((hitOf S β rec).2.t : EReal) else β) temp).2) rec
    simp only [canList] at key
    by_cases hs : (hitOf (canObj o r tMin)
        (if (hitOf S β rec).1 then ((hitOf S β rec).2.t : EReal) else β) temp).1
    · simp only [hs, if_true]
      have h1 : (hitOf (stageCan S (canObj o r tMin)) β rec).1 = true := by
        rw [← hm1, hs, Bool.or_true]
      have h2 : (hitOf (stageCan S (canObj o r tMin)) β rec).2 =
          (hitOf (canObj o r tMin)
            (if (hitOf S β rec).1 then ((hitOf S β rec).2.t : EReal) else β) temp).2 := by
        rw [← hm2, hs]; simp
      have h3 : (if (hitOf (stageCan S (canObj o r tMin)) β rec).1
            then ((hitOf (stageCan S (canObj o r tMin)) β rec).2.t : EReal) else β) =
          ((hitOf (canObj o r tMin)
            (if (hitOf S β rec).1 then ((hitOf S β rec).2.t : EReal) else β) temp).2.t :
            EReal) := by
        rw [← hc, hs]; simp
      rw [h3, h1, h2] at key
      exact key
    · simp only [hs, if_false]
      have h1 : (hitOf (stageCan S (canObj o r tMin)) β rec).1 = (hitOf S β rec).1 := by
        rw [← hm1, Bool.eq_false_iff.mpr hs]
        simp
      have h2 : (hitOf (stageCan S (canObj o r tMin)) β rec).2 = (hitOf S β rec).2 := by
        rw [← hm2, Bool.eq_false_iff.mpr hs]
        simp
      have h3 : (if (hitOf (stageCan S (canObj o r tMin)) β rec).1
            then ((hitOf (stageCan S (canObj o r tMin)) β rec).2.t : EReal) else β) =
          (if (hitOf S β rec).1 then ((hitOf S β rec).2.t : EReal) else β) := by
        rw [← hc, Bool.eq_false_iff.mpr hs]
        simp
      rw [h3, h1, h2] at key
      exact key

lemma sceneHit_threshold (scn : Scene) (r : Ray) (tMin : ℝ) (tMax : EReal)
    (rec : HitRecord) :
    sceneHit scn r tMin tMax rec = hitOf (canScene scn r tMin) tMax rec := by
  have h := sceneAux_threshold r tMin scn.objs none tMax hitRecordDefault rec
  simp only [hitOf, filt] at h
  simpa [sceneHit, canScene, hitOf, filt] using h

lemma canList_min (r : Ray) (tMin : ℝ) :
    ∀ (objs : List Obj) (S : Option HitRecord) (ρ : HitRecord),
    canList r tMin objs S = some ρ →
    (∀ σ, S = some σ → ρ.t ≤ σ.t) ∧
    (∀ o ∈ objs, ∀ τ, canObj o r tMin = some τ → ρ.t ≤ τ.t) := by
  intro objs
  induction objs with
  | nil =>
    intro S ρ h
    simp only [canList, List.foldl_nil] at h
    exact ⟨fun σ hσ => by rw [h] at hσ; cases hσ; exact le_refl _, by simp⟩
  | cons o rest ih =>
    intro S ρ h
    simp only [canList, List.foldl_cons] at h
    have ih' := ih (stageCan S (canObj o r tMin)) ρ (by simpa [canList] using h)
    constructor
    · intro σ hσ
      cases hcn : canObj o r tMin with
      | none =>
        have : stageCan S (canObj o r tMin) = S := by simp [stageCan, hcn]
        exact ih'.1 σ (by rw [this, hσ])
      | some τ =>
        by_cases hle : (τ.t : EReal) ≤ tOf S
        · have hst : stageCan S (canObj o r tMin) = some τ := by
            simp [stageCan, hcn, hle]
          have h1 : ρ.t ≤ τ.t := ih'.1 τ hst
          have h2 : (τ.t : EReal) ≤ (σ.t : EReal) := by rw [hσ] at hle; exact hle
          exact le_trans h1 (EReal.coe_le_coe_iff.mp h2)
        · have hst : stageCan S (canObj o r tMin) = S := by
            simp [stageCan, hcn, hle]
          exact ih'.1 σ (by rw [hst, hσ])
    · intro o' ho' τ hτ
      rcases List.mem_cons.mp ho' with h0 | hrest
      · subst h0
        by_cases hle : (τ.t : EReal) ≤ tOf S
        · have hst : stageCan S (canObj o' r tMin) = some τ := by
            simp [stageCan, hτ, hle]
          exact ih'.1 τ hst
        · cases hS : S with
          | none => exact absurd (by rw [hS]; exact le_top) hle
          | some σ =>
            have h1 : ρ.t ≤ σ.t := by
              have hst : stageCan S (canObj o' r tMin) = S := by
                simp [stageCan, hτ, hle]
              exact ih'.1 σ (by rw [hst, hS])
            have h2 : (σ.t : EReal) ≤ (τ.t : EReal) := by
              rw [hS] at hle
              exact le_of_not_le hle
            exact le_trans h1 (EReal.coe_le_coe_iff.mp h2)
      · exact ih'.2 o' hrest τ hτ

lemma hitOf_true {can : Option HitRecord} {β : EReal} {rec R : HitRecord}
    (h : hitOf can β rec = (true, R)) : can = some R ∧ (R.t : EReal) ≤ β := by
  cases hc : can with
  | none => rw [hc] at h; simp [hitOf, filt] at h
  | some ρ =>
    rw [hc] at h
    by_cases hb : (ρ.t : EReal) ≤ β
    · simp [hitOf, filt, hb] at h
      exact ⟨by rw [h], by rw [← h]; exact hb⟩
    · simp [hitOf, filt, hb] at h
  
lemma hitOf_false {can : Option HitRecord} {β : EReal} {rec : HitRecord}
    (h : (hitOf can β rec).1 = false) : (hitOf can β rec).2 = rec := by
  cases hc : can with
  | none => simp [hitOf, filt, hc]
  | some ρ =>
    by_cases hb : (ρ.t : EReal) ≤ β
    · rw [hc] at h; simp [hitOf, filt, hb] at h
    · simp [hitOf, filt, hc, hb]

/-- C4: if the `scene::hit` fold (insertion order, shrinking upper
bound) returns record `R`, then no primitive of the scene has a hit
inside the original interval with `t` strictly smaller than `R.t`. -/
theorem C4_scene_nearest_hit (scn : Scene) (r : Ray) (tMin : ℝ) (tMax : EReal)
    (rec0 rec1 R rec' : HitRecord) (o : Obj)
    (hS : sceneHit scn r tMin tMax rec0 = (true, R))
    (ho : o ∈ scn.objs)
    (hO : objHit o r tMin tMax rec1 = (true, rec')) :
    ¬ (rec'.t < R.t) := by
  rw [sceneHit_threshold] at hS
  rw [objHit_threshold] at hO
  obtain ⟨hcs, -⟩ := hitOf_true hS
  obtain ⟨hco, -⟩ := hitOf_true hO
  simp only [canScene] at hcs
  exact not_lt.mpr ((canList_min r tMin scn.objs none R hcs).2 o ho rec' hco)

/-- C10: when `sphere::hit`, `cylinder::hit` or `scene::hit` reports no
hit, the caller's `hit_record` argument is returned exactly as it was
passed in. -/
theorem C10_miss_frame (s : Sphere) (cy : Cylinder) (scn : Scene) (r : Ray)
    (tMin : ℝ) (tMax : EReal) (rec : HitRecord) :
    ((sphereHit s r tMin tMax rec).1 = false → (sphereHit s r tMin tMax rec).2 = rec) ∧
    ((cylHit cy r tMin tMax rec).1 = false → (cylHit cy r tMin tMax rec).2 = rec) ∧
    ((sceneHit scn r tMin tMax rec).1 = false → (sceneHit scn r tMin tMax rec).2 = rec) := by
  refine ⟨?_, ?_, ?_⟩
  · rw [sphere_threshold]; exact hitOf_false
  · rw [cylHit_threshold]; exact hitOf_false
  · rw [sceneHit_threshold]; exact hitOf_false

theorem C4_witness :
    ¬ ((sphereRecordAt ⟨⟨0, 0, 3⟩, 1, .matte ⟨1, 1, 1⟩⟩ ⟨⟨0, 0, -5⟩, ⟨0, 0, 1⟩⟩ 7).t <
       (sphereRecordAt ⟨⟨0, 0, 0⟩, 1, .matte ⟨1, 1, 1⟩⟩ ⟨⟨0, 0, -5⟩, ⟨0, 0, 1⟩⟩ 4).t) :=
  C4_scene_nearest_hit
    ⟨[], [.sph ⟨⟨0, 0, 0⟩, 1, .matte ⟨1, 1, 1⟩⟩, .sph ⟨⟨0, 0, 3⟩, 1, .matte ⟨1, 1, 1⟩⟩]⟩
    ⟨⟨0, 0, -5⟩, ⟨0, 0, 1⟩⟩ 0 ⊤ hitRecordDefault hitRecordDefault _ _
    (.sph ⟨⟨0, 0, 3⟩, 1, .matte ⟨1, 1, 1⟩⟩)
    (by simp only [sceneHit, sceneHitAux, objHit, sphereHit, inRangeE, dot, magSq,
          minHitDistance, eps]
        norm_num [sqrt4, EReal.coe_le_coe_iff])
    (by simp)
    (by simp only [objHit, sphereHit, inRangeE, dot, magSq, minHitDistance, eps]
        norm_num [sqrt4, EReal.coe_le_coe_iff])

lemma canRoot_min_congr (q : Quad) {a a' : ℝ}
    (h : max a minHitDistance = max a' minHitDistance) :
    canRoot q a = canRoot q a' := by
  simp only [canRoot]; rw [h]

lemma canSphere_min_congr (s : Sphere) (r : Ray) {a a' : ℝ}
    (h : max a minHitDistance = max a' minHitDistance) :
    canSphere s r a = canSphere s r a' := by
  simp only [canSphere]; rw [canRoot_min_congr _ h]

lemma canCurved_min_congr (cy : Cylinder) (r : Ray) {a a' : ℝ}
    (h : max a minHitDistance = max a' minHitDistance) :
    canCurved cy r a = canCurved cy r a' := by
  simp only [canCurved]; rw [canRoot_min_congr _ h]

lemma canCap_min_congr (cy : Cylinder) (r : Ray) (cap : CapParams) {a a' : ℝ}
    (h : max a minHitDistance = max a' minHitDistance) :
    canCap cy r cap a = canCap cy r cap a' := by
  simp only [canCap]; rw [h]

lemma canCyl_min_congr (cy : Cylinder) (r : Ray) {a a' : ℝ}
    (h : max a minHitDistance = max a' minHitDistance) :
    canCyl cy r a = canCyl cy r a' := by
  simp only [canCyl]
  rw [canCurved_min_congr _ _ h, canCap_min_congr _ _ _ h, canCap_min_congr _ _ _ h]

lemma canObj_min_congr (o : Obj) (r : Ray) {a a' : ℝ}
    (h : max a minHitDistance = max a' minHitDistance) :
    canObj o r a = canObj o r a' := by
  cases o with
  | sph s => simp only [canObj]; exact canSphere_min_congr s r h
  | cyl c => simp only [canObj]; exact canCyl_min_congr c r h

lemma canList_min_congr (r : Ray) {a a' : ℝ}
    (h : max a minHitDistance = max a' minHitDistance) :
    ∀ (objs : List Obj) (acc : Option HitRecord),
    canList r a objs acc = canList r a' objs acc := by
  intro objs
  induction objs with
  | nil => intro acc; rfl
  | cons o rest ih =>
    intro acc
    simp only [canList, List.foldl_cons] at ih ⊢
    rw [canObj_min_congr o r h]
    exact ih _

lemma sceneHit_min_congr (scn : Scene) (r : Ray) {a a' : ℝ}
    (h : max a minHitDistance = max a' minHitDistance) (tMax : EReal) (rec : HitRecord) :
    sceneHit scn r a tMax rec = sceneHit scn r a' tMax rec := by
  rw [sceneHit_threshold, sceneHit_threshold]
  simp only [canScene]
  rw [canList_min_congr r h]

lemma soa_min_eq : max (1e-8 : ℝ) minHitDistance = max (1e-3 : ℝ) minHitDistance := by
  norm_num [minHitDistance]

lemma traceWith_soa_eq (scn : Scene) (bgLight bgDark : Vec) :
    ∀ (d : ℕ) (r : Ray) (g : RNG),
    traceWith 1e-8 scn bgLight bgDark d r g = traceWith 1e-3 scn bgLight bgDark d r g := by
  intro d
  induction d with
  | zero => intro r g; rfl
  | succ d ih =>
    intro r g
    simp only [traceWith]
    rw [sceneHit_min_congr scn r soa_min_eq]
    simp only [ih]

/-- C5: the shader returns black at depth 0; queries the scene on
`[1e-3, ∞)`; on a miss returns the gradient
`(1−t)·background_light + t·background_dark` with
`t = 0.5·(d̂.y + 1)`; on a hit multiplies the attenuation componentwise
with the recursive trace at depth `d − 1`, and returns black when the
material does not scatter.  The soa variant (`ray_color`, `min_t =
1e-8`) computes exactly the same function as the par variant
(`trace_ray`, `min_t = 1e-3`), because every primitive clamps the lower
bound to `max(t_min, 1e-3)`. -/
theorem C5_trace (scn : Scene) (bgLight bgDark : Vec) (r : Ray) (g : RNG) (d : ℕ) :
    (traceRay scn bgLight bgDark 0 r g = some (⟨0, 0, 0⟩, g)) ∧
    ((sceneHit scn r 1e-3 ⊤ hitRecordDefault).1 = false →
      traceRay scn bgLight bgDark (d + 1) r g =
        (normalizedOpt r.dir).map fun u =>
          ((1 - 0.5 * (u.y + 1)) • bgLight + (0.5 * (u.y + 1)) • bgDark, g)) ∧
    (∀ m, (sceneHit scn r 1e-3 ⊤ hitRecordDefault).1 = true →
      (sceneHit scn r 1e-3 ⊤ hitRecordDefault).2.matPtr = some m →
      (∀ res sc g1,
        scatterM m r (sceneHit scn r 1e-3 ⊤ hitRecordDefault).2 g = (some (res, sc), g1) →
        (res.scattered = true →
          traceRay scn bgLight bgDark (d + 1) r g =
            (traceRay scn bgLight bgDark d sc g1).map fun q =>
              (cmul res.attenuation q.1, q.2)) ∧
        (res.scattered = false →
          traceRay scn bgLight bgDark (d + 1) r g = some (⟨0, 0, 0⟩, g1))) ∧
      (∀ g1, scatterM m r (sceneHit scn r 1e-3 ⊤ hitRecordDefault).2 g = (none, g1) →
        traceRay scn bgLight bgDark (d + 1) r g = none)) ∧
    ((sceneHit scn r 1e-3 ⊤ hitRecordDefault).1 = true →
      (sceneHit scn r 1e-3 ⊤ hitRecordDefault).2.matPtr = none →
      traceRay scn bgLight bgDark (d + 1) r g = some (⟨0, 0, 0⟩, g)) ∧
    (rayColor scn bgLight bgDark d r g = traceRay scn bgLight bgDark d r g) := by
  refine ⟨rfl, ?_, ?_, ?_, ?_⟩
  · intro hs
    simp only [traceRay, traceWith, hs]
    cases hn : normalizedOpt r.dir <;> simp [hn]
  · intro m hs hm
    constructor
    · intro res sc g1 hsc
      constructor
      · intro hres
        simp only [traceRay, traceWith, hs, hm, hsc, hres, if_true]
        cases ht : traceWith 1e-3 scn bgLight bgDark d sc g1 <;> simp [ht]
      · intro hres
        simp only [traceRay, traceWith, hs, hm, hsc, hres]
        simp
    · intro g1 hsc
      simp only [traceRay, traceWith, hs, hm, hsc]
      simp
  · intro hs hm
    simp only [traceRay, traceWith, hs, hm]
    simp
  · exact traceWith_soa_eq scn bgLight bgDark d r g

lemma magSq_eq_dot (v : Vec) : magSq v = dot v v := rfl

/-- C3: `sphere::hit` solves the spec's quadratic
`|d|²·t² − 2(d·oc)·t + (|oc|² − R²) = 0`: a negative discriminant is a
miss; otherwise the smaller root is taken when it lies in
`[max(t_min, 1e-3), t_max]`, else the larger when that does, else it is
a miss; and the written record has `point = r(t)`, outward normal
`(point − c)/R`, `front_face ↔ d·outward < 0`, and `normal` flipped
against the ray when `front_face` is false. -/
theorem C3_sphere_hit (s : Sphere) (r : Ray) (tMin : ℝ) (tMax : EReal) (rec : HitRecord) :
    (4 * (dot r.dir (s.center - r.orig) * dot r.dir (s.center - r.orig)) -
        4 * magSq r.dir * (magSq (s.center - r.orig) - s.radius * s.radius) < 0 →
      sphereHit s r tMin tMax rec = (false, rec)) ∧
    (0 ≤ 4 * (dot r.dir (s.center - r.orig) * dot r.dir (s.center - r.orig)) -
        4 * magSq r.dir * (magSq (s.center - r.orig) - s.radius * s.radius) →
      (inRangeE ((2 * dot r.dir (s.center - r.orig) -
            Real.sqrt (4 * (dot r.dir (s.center - r.orig) * dot r.dir (s.center - r.orig)) -
              4 * magSq r.dir * (magSq (s.center - r.orig) - s.radius * s.radius))) /
            (2 * magSq r.dir))
          (max tMin minHitDistance) tMax →
        sphereHit s r tMin tMax rec = (true, sphereRecordAt s r
          ((2 * dot r.dir (s.center - r.orig) -
            Real.sqrt (4 * (dot r.dir (s.center - r.orig) * dot r.dir (s.center - r.orig)) -
              4 * magSq r.dir * (magSq (s.center - r.orig) - s.radius * s.radius))) /
            (2 * magSq r.dir)))) ∧
      (¬ inRangeE ((2 * dot r.dir (s.center - r.orig) -
            Real.sqrt (4 * (dot r.dir (s.center - r.orig) * dot r.dir (s.center - r.orig)) -
              4 * magSq r.dir * (magSq (s.center - r.orig) - s.radius * s.radius))) /
            (2 * magSq r.dir))
          (max tMin minHitDistance) tMax →
        (inRangeE ((2 * dot r.dir (s.center - r.orig) +
              Real.sqrt (4 * (dot r.dir (s.center - r.orig) * dot r.dir (s.center - r.orig)) -
                4 * magSq r.dir * (magSq (s.center - r.orig) - s.radius * s.radius))) /
              (2 * magSq r.dir))
            (max tMin minHitDistance) tMax →
          sphereHit s r tMin tMax rec = (true, sphereRecordAt s r
            ((2 * dot r.dir (s.center - r.orig) +
              Real.sqrt (4 * (dot r.dir (s.center - r.orig) * dot r.dir (s.center - r.orig)) -
                4 * magSq r.dir * (magSq (s.center - r.orig) - s.radius * s.radius))) /
              (2 * magSq r.dir)))) ∧
        (¬ inRangeE ((2 * dot r.dir (s.center - r.orig) +
              Real.sqrt (4 * (dot r.dir (s.center - r.orig) * dot r.dir (s.center - r.orig)) -
                4 * magSq r.dir * (magSq (s.center - r.orig) - s.radius * s.radius))) /
              (2 * magSq r.dir))
            (max tMin minHitDistance) tMax →
          sphereHit s r tMin tMax rec = (false, rec)))) ∧
    (∀ t, sphereRecordAt s r t =
      { point := rayAt r t,
        normal := if dot r.dir ((1 / s.radius) • (rayAt r t - s.center)) < 0
          then (1 / s.radius) • (rayAt r t - s.center)
          else -((1 / s.radius) • (rayAt r t - s.center)),
        matPtr := some s.mat, t := t,
        frontFace := if dot r.dir ((1 / s.radius) • (rayAt r t - s.center)) < 0
          then true else false }) := by
  have hd : (-2 * dot r.dir (s.center - r.orig)) * (-2 * dot r.dir (s.center - r.orig)) -
      4 * magSq r.dir * (magSq (s.center - r.orig) - s.radius * s.radius) =
      4 * (dot r.dir (s.center - r.orig) * dot r.dir (s.center - r.orig)) -
      4 * magSq r.dir * (magSq (s.center - r.orig) - s.radius * s.radius) := by
    ring
  have et1 : (-(-2 * dot r.dir (s.center - r.orig)) -
      Real.sqrt ((-2 * dot r.dir (s.center - r.orig)) * (-2 * dot r.dir (s.center - r.orig)) -
        4 * magSq r.dir * (magSq (s.center - r.orig) - s.radius * s.radius))) /
      (2 * magSq r.dir) =
      (2 * dot r.dir (s.center - r.orig) -
      Real.sqrt (4 * (dot r.dir (s.center - r.orig) * dot r.dir (s.center - r.orig)) -
        4 * magSq r.dir * (magSq (s.center - r.orig) - s.radius * s.radius))) /
      (2 * magSq r.dir) := by
    rw [hd]; ring_nf
  have et2 : (-(-2 * dot r.dir (s.center - r.orig)) +
      Real.sqrt ((-2 * dot r.dir (s.center - r.orig)) * (-2 * dot r.dir (s.center - r.orig)) -
        4 * magSq r.dir * (magSq (s.center - r.orig) - s.radius * s.radius))) /
      (2 * magSq r.dir) =
      (2 * dot r.dir (s.center - r.orig) +
      Real.sqrt (4 * (dot r.dir (s.center - r.orig) * dot r.dir (s.center - r.orig)) -
        4 * magSq r.dir * (magSq (s.center - r.orig) - s.radius * s.radius))) /
      (2 * magSq r.dir) := by
    rw [hd]; ring_nf
  refine ⟨?_, ?_, ?_⟩
  · intro hlt
    simp only [sphereHit, ← magSq_eq_dot]
    split_ifs with hc1 hc2 hc3 <;>
      first
        | rfl
        | (rw [hd] at hc1; linarith)
  · intro hge
    constructor
    · intro h1
      simp only [sphereHit, ← magSq_eq_dot]
      split_ifs with hc1 hc2 hc3 <;>
        first
          | (rw [hd] at hc1; linarith)
          | rw [et1]
          | (rw [et1] at hc2; exact absurd h1 hc2)
    · intro h1
      constructor
      · intro h2
        simp only [sphereHit, ← magSq_eq_dot]
        split_ifs with hc1 hc2 hc3 <;>
          first
            | (rw [hd] at hc1; linarith)
            | (rw [et1] at hc2; exact absurd hc2 h1)
            | rw [et2]
            | (rw [et2] at hc3; exact absurd h2 hc3)
      · intro h2
        simp only [sphereHit, ← magSq_eq_dot]
        split_ifs with hc1 hc2 hc3 <;>
          first
            | rfl
            | (rw [hd] at hc1; linarith)
            | (rw [et1] at hc2; exact absurd hc2 h1)
            | (rw [et2] at hc3; exact absurd hc3 h2)
  · intro t
    simp only [sphereRecordAt]

/-- C1: the claim says the curved-wall hit normal is the unit radial
projection `(r(t) − c)_⊥ / R` for every radius.  The code stores the
radial projection without dividing by the radius: for the cylinder
`(center (0,0,0), R = 2, axis (0,1,0))` and the ray `(0,0,−5) → (0,0,1)`
the wall hit at `t = 3` records the normal `(0,0,−2)` of squared length
4, not a unit vector (the orientation against the incident ray is still
correct, `front_face = true`). -/
theorem C1_cylinder_wall_normal :
    cylHit ⟨⟨0, 0, 0⟩, 2, ⟨0, 1, 0⟩, ⟨0, 1, 0⟩, 1, .matte ⟨1, 1, 1⟩⟩
        ⟨⟨0, 0, -5⟩, ⟨0, 0, 1⟩⟩ 0 ⊤ hitRecordDefault =
      (true, { point := ⟨0, 0, -2⟩, normal := ⟨0, 0, -2⟩,
               matPtr := some (.matte ⟨1, 1, 1⟩), t := 3, frontFace := true }) ∧
    magSq (⟨0, 0, -2⟩ : Vec) = 4 ∧ (4 : ℝ) ≠ 1 := by
  refine ⟨?_, by norm_num [magSq], by norm_num⟩
  simp only [cylHit, cylHitCurved, cylinderQuad, chooseRoot, perpTo, dot, magSq,
    withinCaps, outwardNormalAt, cylHitCap, capRecordAt, rayAt, eps, capEpsilon,
    epsParallel, minHitDistance, hitRecordDefault]
  norm_num [sqrt16, Vec.eq_iff]

/-- C6 (amended): the ray constructor fails exactly when
`|direction|² < ε` with `ε = 1e-8` — not `< ε²` as the claim states —
and otherwise stores origin and direction unchanged, with
`r(t) = origin + t·direction`. -/
theorem C6_ray_constructor (origin direction : Vec) :
    (rayMk origin direction = none ↔ magSq direction < eps) ∧
    (¬ magSq direction < eps → rayMk origin direction = some ⟨origin, direction⟩) ∧
    (∀ t : ℝ, rayAt ⟨origin, direction⟩ t = origin + t • direction) := by
  refine ⟨?_, ?_, fun t => rfl⟩
  · unfold rayMk
    split_ifs with h <;> simp [h]
  · intro h
    unfold rayMk
    rw [if_neg h]

/-- C6 counterexample: the direction `(1e-5, 0, 0)` satisfies the
claim's `|direction|² ≥ ε²` (1e-10 ≥ 1e-16), yet the constructor
rejects it, because the code compares `|direction|²` against `ε`
itself. -/
theorem C6_counterexample :
    eps ^ 2 ≤ magSq ⟨1e-5, 0, 0⟩ ∧ rayMk ⟨0, 0, 0⟩ ⟨1e-5, 0, 0⟩ = none := by
  constructor
  · norm_num [magSq, eps]
  · rw [rayMk, if_pos]
    norm_num [magSq, eps]

lemma clampR_nonneg (v : ℝ) : 0 ≤ clampR v 0 1 := by
  unfold clampR; split_ifs <;> linarith

lemma clampR_le_one (v : ℝ) : clampR v 0 1 ≤ 1 := by
  unfold clampR; split_ifs <;> linarith

lemma clampR_mono {v w : ℝ} (h : v ≤ w) : clampR v 0 1 ≤ clampR w 0 1 := by
  unfold clampR; split_ifs <;> linarith

/-- C7: for every `γ > 0` the discrete byte of a channel equals
`⌊clamp(c,0,1)^(1/γ) · 255⌋`, and the map from the linear value to the
byte is monotone non-decreasing. -/
theorem C7_gamma_byte (gamma : ℝ) (hγ : 0 < gamma) (c c' : ℝ) (hcc : c ≤ c')
    (g1 b1 g2 b2 : ℝ) :
    toDiscreteR ⟨c, g1, b1⟩ gamma = (⌊clampR c 0 1 ^ (1 / gamma) * 255⌋).toNat ∧
    toDiscreteR ⟨c, g1, b1⟩ gamma ≤ toDiscreteR ⟨c', g2, b2⟩ gamma := by
  have key : ∀ v : ℝ, applyGammaCorrection (clampR v 0 1) gamma = clampR v 0 1 ^ (1 / gamma) := by
    intro v
    unfold applyGammaCorrection
    rw [if_neg (not_lt.mpr (clampR_nonneg v))]
  constructor
  · simp only [toDiscreteR, toDiscrete, key]
  · simp only [toDiscreteR, toDiscrete, key]
    have hpow : clampR c 0 1 ^ (1 / gamma) ≤ clampR c' 0 1 ^ (1 / gamma) :=
      Real.rpow_le_rpow (clampR_nonneg c) (clampR_mono hcc) (by positivity)
    exact Int.toNat_le_toNat (Int.floor_le_floor (by nlinarith))

theorem C7_witness :
    toDiscreteR ⟨0, 0, 0⟩ 2 = (⌊clampR 0 0 1 ^ (1 / (2 : ℝ)) * 255⌋).toNat ∧
    toDiscreteR ⟨0, 0, 0⟩ 2 ≤ toDiscreteR ⟨1, 0, 0⟩ 2 :=
  C7_gamma_byte 2 (by norm_num) 0 1 (by norm_num) 0 0 0 0

/-- C2: the claim says `num_threads`, `grain_size` and `partitioner` are
recognised configuration keys.  The handler map of `load_config` holds
exactly the thirteen other keys, so each of those three lines raises the
unknown-key error, against the spec's key table and the expectations of
test_config.cpp. -/
theorem C2_config_parallel_keys (cfg : Config) :
    processLines ["num_threads: 8"] cfg =
      .error "Error: Unknown configuration key: [num_threads:]" ∧
    processLines ["grain_size: 50"] cfg =
      .error "Error: Unknown configuration key: [grain_size:]" ∧
    processLines ["partitioner: auto"] cfg =
      .error "Error: Unknown configuration key: [partitioner:]" ∧
    (["aspect_ratio", "image_width", "gamma", "camera_position", "camera_target",
      "camera_north", "field_of_view", "samples_per_pixel", "max_depth",
      "material_rng_seed", "ray_rng_seed", "background_dark_color",
      "background_light_color"].map fun k => (findHandler k).isSome) =
      List.replicate 13 true := by
  exact ⟨rfl, rfl, rfl, rfl⟩

/-- C9: `refractive_material::scatter` never reads the RNG — two calls
with arbitrary states return the same result and leave the state
untouched — the attenuation is `(1,1,1)`, and the scattered direction is
the mirror reflection exactly when `η·sinθ > 1` and the Snell
refraction otherwise. -/
theorem C9_refractive_deterministic (ior : ℝ) (r : Ray) (rec : HitRecord) (g1 g2 : RNG) :
    (scatterM (.refractive ior) r rec g1).1 = (scatterM (.refractive ior) r rec g2).1 ∧
    (scatterM (.refractive ior) r rec g1).2 = g1 ∧
    (∀ res sc, (scatterM (.refractive ior) r rec g1).1 = some (res, sc) →
      res.attenuation = ⟨1, 1, 1⟩ ∧ res.scattered = true) ∧
    (∀ u, normalizedOpt r.dir = some u →
      ((if rec.frontFace then 1 / ior else ior) *
          Real.sqrt (1 - min (dot (-u) rec.normal) 1 * min (dot (-u) rec.normal) 1) > 1 →
        (scatterM (.refractive ior) r rec g1).1 =
          (rayMk rec.point (u - (2 * dot u rec.normal) • rec.normal)).map fun sc =>
            (⟨true, ⟨1, 1, 1⟩⟩, sc)) ∧
      (¬ ((if rec.frontFace then 1 / ior else ior) *
          Real.sqrt (1 - min (dot (-u) rec.normal) 1 * min (dot (-u) rec.normal) 1) > 1) →
        (scatterM (.refractive ior) r rec g1).1 =
          (rayMk rec.point
            ((if rec.frontFace then 1 / ior else ior) •
                (u + min (dot (-u) rec.normal) 1 • rec.normal) +
              (-Real.sqrt (max 0 (1 - magSq ((if rec.frontFace then 1 / ior else ior) •
                (u + min (dot (-u) rec.normal) 1 • rec.normal))))) • rec.normal)).map
            fun sc => (⟨true, ⟨1, 1, 1⟩⟩, sc))) := by
  refine ⟨?_, ?_, ?_, ?_⟩
  · unfold scatterM
    cases h : normalizedOpt r.dir <;> simp [h]
  · unfold scatterM
    cases h : normalizedOpt r.dir <;> simp [h]
  · intro res sc hres
    simp only [scatterM] at hres
    cases h : normalizedOpt r.dir
    · rw [h] at hres; simp at hres
    · rw [h] at hres
      simp only [Option.map_eq_some'] at hres
      obtain ⟨sc', hsc', heq⟩ := hres
      cases heq
      exact ⟨rfl, rfl⟩
  · intro u hu
    constructor
    · intro hc
      simp only [scatterM, hu]
      rw [if_pos hc]
    · intro hc
      simp only [scatterM, hu]
      rw [if_neg hc]

lemma exceptBind_ok_iff {α β : Type} (e : Except String α) (f : α → Except String β)
    (b : β) : (e >>= f) = .ok b ↔ ∃ a, e = .ok a ∧ f a = .ok b := by
  cases e <;> simp [Bind.bind, Except.bind]

lemma lookup_matsInsert_self (nm : String) (m : PMaterial) :
    ∀ l : List (String × PMaterial), List.lookup nm (matsInsert nm m l) = some m := by
  intro l
  induction l with
  | nil => simp [matsInsert, List.lookup]
  | cons p rest ih =>
    cases p with
    | mk k v =>
      by_cases h : k = nm
      · subst h
        simp [matsInsert, List.lookup]
      · simp only [matsInsert, if_neg h, List.lookup]
        rw [show (nm == k) = false from beq_eq_false_iff_ne.mpr (Ne.symm h)]
        exact ih

lemma lookup_matsInsert_isSome (n nm : String) (m : PMaterial) :
    ∀ l : List (String × PMaterial), (List.lookup n l).isSome →
    (List.lookup n (matsInsert nm m l)).isSome := by
  intro l
  induction l with
  | nil => simp [List.lookup]
  | cons p rest ih =>
    cases p with
    | mk k v =>
      intro h
      by_cases hk : k = nm
      · subst hk
        simp only [matsInsert, if_pos rfl, List.lookup] at h ⊢
        by_cases hn : n = k
        · rw [show (n == k) = true from beq_iff_eq.mpr hn]
          simp
        · rw [show (n == k) = false from beq_eq_false_iff_ne.mpr hn] at h ⊢
          exact h
      · simp only [matsInsert, if_neg hk, List.lookup] at h ⊢
        by_cases hn : n = k
        · rw [show (n == k) = true from beq_iff_eq.mpr hn]
          simp
        · rw [show (n == k) = false from beq_eq_false_iff_ne.mpr hn] at h ⊢
          exact ih h

lemma iteErr_ok {α : Type} {c : Prop} [inst : Decidable c] {e : String} {v w : α}
    (h : (if c then (Except.error e : Except String α) else .ok v) = .ok w) :
    v = w ∧ ¬ c := by
  by_cases hc : c
  · rw [if_pos hc] at h
    exact absurd h (by simp)
  · rw [if_neg hc] at h
    exact ⟨by injection h, hc⟩

lemma parseMatte_ok {parts : List String} {line : String} {scn scn' : PScene}
    (h : parseMatte parts line scn = .ok scn') :
    ∃ m, scn' = addPMaterial scn (parts.getD 1 "") m := by
  simp only [parseMatte, exceptBind_ok_iff] at h
  obtain ⟨a1, h1, a2, h2, refl', h3, a4, h4, h5⟩ := h
  exact ⟨.matte refl', by injection h5 with h6; rw [h6]⟩

lemma parseMetal_ok {parts : List String} {line : String} {scn scn' : PScene}
    (h : parseMetal parts line scn = .ok scn') :
    ∃ m, scn' = addPMaterial scn (parts.getD 1 "") m := by
  simp only [parseMetal, exceptBind_ok_iff] at h
  obtain ⟨a1, h1, a2, h2, refl', h3, a4, h4, diffusion, h5, h6⟩ := h
  exact ⟨.metal refl' diffusion, ((iteErr_ok h6).1).symm⟩

lemma parseRefractive_ok {parts : List String} {line : String} {scn scn' : PScene}
    (h : parseRefractive parts line scn = .ok scn') :
    ∃ m, scn' = addPMaterial scn (parts.getD 1 "") m := by
  simp only [parseRefractive, exceptBind_ok_iff] at h
  obtain ⟨a1, h1, a2, h2, ior, h3, h4⟩ := h
  exact ⟨.refractive ior, ((iteErr_ok h4).1).symm⟩

lemma parseSphereLine_ok {parts : List String} {line : String} {scn scn' : PScene}
    (h : parseSphereLine parts line scn = .ok scn') : scn'.mats = scn.mats := by
  simp only [parseSphereLine, exceptBind_ok_iff] at h
  obtain ⟨a1, h1, c, h2, radius, h3, h4⟩ := h
  by_cases hr : radius ≤ 0
  · rw [if_pos hr] at h4
    exact absurd h4 (by simp)
  · rw [if_neg hr] at h4
    cases hm : getPMaterial scn (parts.getD 5 "") with
    | none => rw [hm] at h4; exact absurd h4 (by simp)
    | some m =>
      rw [hm] at h4
      injection h4 with h5
      rw [← h5]
      rfl

lemma parseCylinderLine_ok {parts : List String} {line : String} {scn scn' : PScene}
    (h : parseCylinderLine parts line scn = .ok scn') : scn'.mats = scn.mats := by
  simp only [parseCylinderLine, exceptBind_ok_iff] at h
  obtain ⟨a1, h1, c, h2, radius, h3, axis, h4, h5⟩ := h
  by_cases hr : radius ≤ 0
  · rw [if_pos hr] at h5
    exact absurd h5 (by simp)
  · rw [if_neg hr] at h5
    by_cases hz : qvNearZero axis
    · rw [if_pos hz] at h5
      exact absurd h5 (by simp)
    · rw [if_neg hz] at h5
      cases hm : getPMaterial scn (parts.getD 8 "") with
      | none => rw [hm] at h5; exact absurd h5 (by simp)
      | some m =>
        rw [hm] at h5
        injection h5 with h6
        rw [← h6]
        rfl

lemma addPMaterial_keeps {scn : PScene} {nm : String} {m : PMaterial} {n : String}
    (h : (getPMaterial scn n).isSome) :
    (getPMaterial (addPMaterial scn nm m) n).isSome := by
  simp only [getPMaterial, addPMaterial] at h ⊢
  exact lookup_matsInsert_isSome n nm m _ h

lemma step_mats_mono {line : String} {k : ℕ} {scn scn' : PScene} {n : String}
    (h : parseSceneLine line k scn = .ok scn') (hp : (getPMaterial scn n).isSome) :
    (getPMaterial scn' n).isSome := by
  unfold parseSceneLine at h
  cases hsp : splitWs line with
  | nil =>
    rw [hsp] at h
    injection h with h1
    rw [← h1]
    exact hp
  | cons tag0 rest =>
    rw [hsp] at h
    dsimp only at h
    by_cases h1 : stripColon tag0 = "matte"
    · rw [if_pos h1] at h
      obtain ⟨m, hm⟩ := parseMatte_ok h
      rw [hm]
      exact addPMaterial_keeps hp
    · rw [if_neg h1] at h
      by_cases h2 : stripColon tag0 = "metal"
      · rw [if_pos h2] at h
        obtain ⟨m, hm⟩ := parseMetal_ok h
        rw [hm]
        exact addPMaterial_keeps hp
      · rw [if_neg h2] at h
        by_cases h3 : stripColon tag0 = "refractive"
        · rw [if_pos h3] at h
          obtain ⟨m, hm⟩ := parseRefractive_ok h
          rw [hm]
          exact addPMaterial_keeps hp
        · rw [if_neg h3] at h
          by_cases h4 : stripColon tag0 = "sphere"
          · rw [if_pos h4] at h
            have := parseSphereLine_ok h
            simp only [getPMaterial, this] at hp ⊢
            exact hp
          · rw [if_neg h4] at h
            by_cases h5 : stripColon tag0 = "cylinder"
            · rw [if_pos h5] at h
              have := parseCylinderLine_ok h
              simp only [getPMaterial, this] at hp ⊢
              exact hp
            · rw [if_neg h5] at h
              exact absurd h (by simp)

lemma defines_step_adds {line n : String} {k : ℕ} {scn scn' : PScene}
    (hd : definesName line n = true) (h : parseSceneLine line k scn = .ok scn') :
    (getPMaterial scn' n).isSome := by
  unfold definesName at hd
  unfold parseSceneLine at h
  cases hsp : splitWs line with
  | nil => rw [hsp] at hd; simp at hd
  | cons tag0 rest =>
    rw [hsp] at hd h
    dsimp only at h
    cases rest with
    | nil => simp at hd
    | cons name rest2 =>
      simp only [Bool.and_eq_true, Bool.or_eq_true, beq_iff_eq] at hd
      obtain ⟨htag, hname⟩ := hd
      subst hname
      have key : ∀ m : PMaterial,
          (getPMaterial (addPMaterial scn ((tag0 :: name :: rest2).getD 1 "") m)
            name).isSome := by
        intro m
        simp only [getPMaterial, addPMaterial, List.getD]
        simp [lookup_matsInsert_self]
      rcases htag with (h1 | h1) | h1
      · rw [if_pos h1] at h
        obtain ⟨m, hm⟩ := parseMatte_ok h
        rw [hm]; exact key m
      · rw [if_neg (by rw [h1]; decide), if_pos h1] at h
        obtain ⟨m, hm⟩ := parseMetal_ok h
        rw [hm]; exact key m
      · rw [if_neg (by rw [h1]; decide), if_neg (by rw [h1]; decide), if_pos h1] at h
        obtain ⟨m, hm⟩ := parseRefractive_ok h
        rw [hm]; exact key m

lemma validateMaterialUnique_present {scn : PScene} {name line : String}
    (hp : (getPMaterial scn name).isSome) :
    validateMaterialUnique scn name line =
      .error ("Error: Material with name [" ++ name ++ "] already exists\nLine: " ++ line) := by
  unfold validateMaterialUnique
  rw [if_pos hp]

lemma parseMatte_present_fail {parts : List String} {line : String} {scn : PScene}
    (hp : (getPMaterial scn (parts.getD 1 "")).isSome) :
    ∀ scn', parseMatte parts line scn ≠ .ok scn' := by
  intro scn' hok
  simp only [parseMatte, exceptBind_ok_iff] at hok
  obtain ⟨a1, h1, a2, h2, hrest⟩ := hok
  rw [validateMaterialUnique_present hp] at h2
  exact absurd h2 (by simp)

lemma parseMetal_present_fail {parts : List String} {line : String} {scn : PScene}
    (hp : (getPMaterial scn (parts.getD 1 "")).isSome) :
    ∀ scn', parseMetal parts line scn ≠ .ok scn' := by
  intro scn' hok
  simp only [parseMetal, exceptBind_ok_iff] at hok
  obtain ⟨a1, h1, a2, h2, hrest⟩ := hok
  rw [validateMaterialUnique_present hp] at h2
  exact absurd h2 (by simp)

lemma parseRefractive_present_fail {parts : List String} {line : String} {scn : PScene}
    (hp : (getPMaterial scn (parts.getD 1 "")).isSome) :
    ∀ scn', parseRefractive parts line scn ≠ .ok scn' := by
  intro scn' hok
  simp only [parseRefractive, exceptBind_ok_iff] at hok
  obtain ⟨a1, h1, a2, h2, hrest⟩ := hok
  rw [validateMaterialUnique_present hp] at h2
  exact absurd h2 (by simp)

lemma defines_present_fails {line n : String} {k : ℕ} {scn : PScene}
    (hd : definesName line n = true) (hp : (getPMaterial scn n).isSome) :
    ∃ e, parseSceneLine line k scn = .error e := by
  unfold definesName at hd
  cases hres : parseSceneLine line k scn with
  | error e => exact ⟨e, rfl⟩
  | ok scn' =>
    exfalso
    unfold parseSceneLine at hres
    cases hsp : splitWs line with
    | nil => rw [hsp] at hd; simp at hd
    | cons tag0 rest =>
      rw [hsp] at hd hres
      dsimp only at hres
      cases rest with
      | nil => simp at hd
      | cons name rest2 =>
        simp only [Bool.and_eq_true, Bool.or_eq_true, beq_iff_eq] at hd
        obtain ⟨htag, hname⟩ := hd
        subst hname
        have hp' : (getPMaterial scn ((tag0 :: name :: rest2).getD 1 "")).isSome := by
          simpa [List.getD] using hp
        rcases htag with (h1 | h1) | h1
        · rw [if_pos h1] at hres
          exact parseMatte_present_fail hp' scn' hres
        · rw [if_neg (by rw [h1]; decide), if_pos h1] at hres
          exact parseMetal_present_fail hp' scn' hres
        · rw [if_neg (by rw [h1]; decide), if_neg (by rw [h1]; decide), if_pos h1] at hres
          exact parseRefractive_present_fail hp' scn' hres

lemma run_ok_no_redefine (n : String) :
    ∀ (lines : List String) (k : ℕ) (scn scn' : PScene),
    parseSceneFrom lines k scn = .ok scn' → (getPMaterial scn n).isSome →
    ∀ j, j < lines.length → definesName (lines.getD j "") n = false := by
  intro lines
  induction lines with
  | nil => intro k scn scn' _ _ j hj; exact absurd hj (by simp)
  | cons line rest ih =>
    intro k scn scn' hrun hp j hj
    simp only [parseSceneFrom] at hrun
    cases hstep : parseSceneLine line (k + 1) scn with
    | error e => rw [hstep] at hrun; exact absurd hrun (by simp)
    | ok scn1 =>
      rw [hstep] at hrun
      cases j with
      | zero =>
        simp only [List.getD_cons_zero]
        by_contra hd
        rw [Bool.not_eq_false] at hd
        obtain ⟨e, he⟩ := defines_present_fails (k := k + 1) hd hp
        rw [he] at hstep
        exact absurd hstep (by simp)
      | succ j' =>
        simp only [List.getD_cons_succ]
        exact ih (k + 1) scn1 scn' hrun (step_mats_mono hstep hp) j'
          (by simpa using Nat.lt_of_succ_lt_succ hj)

lemma run_ok_unique (n : String) :
    ∀ (lines : List String) (k : ℕ) (scn scn' : PScene),
    parseSceneFrom lines k scn = .ok scn' →
    ∀ i j, i < j → j < lines.length → definesName (lines.getD i "") n = true →
    definesName (lines.getD j "") n = false := by
  intro lines
  induction lines with
  | nil => intro k scn scn' _ i j _ hj _; exact absurd hj (by simp)
  | cons line rest ih =>
    intro k scn scn' hrun i j hij hj hi
    simp only [parseSceneFrom] at hrun
    cases hstep : parseSceneLine line (k + 1) scn with
    | error e => rw [hstep] at hrun; exact absurd hrun (by simp)
    | ok scn1 =>
      rw [hstep] at hrun
      cases i with
      | zero =>
        simp only [List.getD_cons_zero] at hi
        cases j with
        | zero => exact absurd hij (by simp)
        | succ j' =>
          simp only [List.getD_cons_succ]
          exact run_ok_no_redefine n rest (k + 1) scn1 scn' hrun
            (defines_step_adds hi hstep) j' (by simpa using Nat.lt_of_succ_lt_succ hj)
      | succ i' =>
        cases j with
        | zero => exact absurd hij (by simp)
        | succ j' =>
          simp only [List.getD_cons_succ] at hi ⊢
          exact ih (k + 1) scn1 scn' hrun i' j' (by omega)
            (by simpa using Nat.lt_of_succ_lt_succ hj) hi

lemma prefOf_append (n b : List Char) : prefOf n (n ++ b) = true := by
  induction n with
  | nil => rfl
  | cons c rest ih => simp [prefOf, ih]

lemma subIn_mid (n : List Char) : ∀ (a b : List Char), subIn n (a ++ n ++ b) = true := by
  intro a
  induction a with
  | nil =>
    intro b
    cases hn : n with
    | nil =>
      cases b with
      | nil => rfl
      | cons c rest => simp [subIn, prefOf]
    | cons c rest =>
      simp only [List.nil_append]
      rw [← hn]
      have := prefOf_append n b
      cases hnb : n ++ b with
      | nil => rw [hnb] at this; simpa [subIn, hnb] using this
      | cons d tl =>
        simp only [subIn]
        rw [← hnb, this]
        simp
  | cons c rest ih =>
    intro b
    simp only [List.cons_append, subIn, List.append_eq]
    rw [ih b, Bool.or_true]

lemma strContains_mid (a n b : String) : strContains (a ++ n ++ b) n = true := by
  simp only [strContains, String.data_append]
  exact subIn_mid n.data a.data b.data

lemma parseMatte_dup_msg {parts : List String} {line : String} {scn : PScene}
    (hchk : checkExactSize parts 5 "matte" line = .ok ())
    (hp : (getPMaterial scn (parts.getD 1 "")).isSome) :
    parseMatte parts line scn = .error
      ("Error: Material with name [" ++ parts.getD 1 "" ++ "] already exists\nLine: " ++
        line) := by
  simp only [parseMatte, hchk]
  rw [show ∀ f : Unit → Except String PScene, (Except.ok () >>= f) = f () from
    fun f => rfl]
  rw [validateMaterialUnique_present hp]
  rfl

lemma parseMetal_dup_msg {parts : List String} {line : String} {scn : PScene}
    (hchk : checkExactSize parts 6 "metal" line = .ok ())
    (hp : (getPMaterial scn (parts.getD 1 "")).isSome) :
    parseMetal parts line scn = .error
      ("Error: Material with name [" ++ parts.getD 1 "" ++ "] already exists\nLine: " ++
        line) := by
  simp only [parseMetal, hchk]
  rw [show ∀ f : Unit → Except String PScene, (Except.ok () >>= f) = f () from
    fun f => rfl]
  rw [validateMaterialUnique_present hp]
  rfl

lemma parseRefractive_dup_msg {parts : List String} {line : String} {scn : PScene}
    (hchk : checkExactSize parts 3 "refractive" line = .ok ())
    (hp : (getPMaterial scn (parts.getD 1 "")).isSome) :
    parseRefractive parts line scn = .error
      ("Error: Material with name [" ++ parts.getD 1 "" ++ "] already exists\nLine: " ++
        line) := by
  simp only [parseRefractive, hchk]
  rw [show ∀ f : Unit → Except String PScene, (Except.ok () >>= f) = f () from
    fun f => rfl]
  rw [validateMaterialUnique_present hp]
  rfl

lemma dupMsg_contains (name line : String) :
    strContains ("Error: Material with name [" ++ name ++ "] already exists\nLine: " ++ line)
      name = true := by
  have h := subIn_mid name.data "Error: Material with name [".data
    ("] already exists\nLine: ".data ++ line.data)
  simp only [strContains, String.data_append, List.append_assoc] at h ⊢
  exact h

/-- C8 (amended): a scene file in which two material lines define the
same name always fails to parse; when the duplicate line reaches the
uniqueness check (its token count is right), the error message contains
the duplicate name; and a material line whose name is not yet defined
never fails the uniqueness check. -/
theorem C8_duplicate_material_name (lines : List String) (i j : ℕ) (n : String)
    (hij : i < j) (hj : j < lines.length)
    (hi : definesName (lines.getD i "") n = true)
    (hjd : definesName (lines.getD j "") n = true) :
    (∃ e, parseScene lines = .error e) ∧
    (∀ parts line scn, checkExactSize parts 5 "matte" line = .ok () →
      (getPMaterial scn (parts.getD 1 "")).isSome →
      ∃ e, parseMatte parts line scn = .error e ∧
        strContains e (parts.getD 1 "") = true) ∧
    (∀ parts line scn, checkExactSize parts 6 "metal" line = .ok () →
      (getPMaterial scn (parts.getD 1 "")).isSome →
      ∃ e, parseMetal parts line scn = .error e ∧
        strContains e (parts.getD 1 "") = true) ∧
    (∀ parts line scn, checkExactSize parts 3 "refractive" line = .ok () →
      (getPMaterial scn (parts.getD 1 "")).isSome →
      ∃ e, parseRefractive parts line scn = .error e ∧
        strContains e (parts.getD 1 "") = true) ∧
    (∀ (scn : PScene) (name line : String), (getPMaterial scn name).isSome = false →
      validateMaterialUnique scn name line = .ok ()) := by
  refine ⟨?_, ?_, ?_, ?_, ?_⟩
  · cases hres : parseScene lines with
    | error e => exact ⟨e, rfl⟩
    | ok scn' =>
      have := run_ok_unique n lines 0 psceneEmpty scn' hres i j hij hj hi
      rw [hjd] at this
      exact absurd this (by simp)
  · intro parts line scn hchk hp
    exact ⟨_, parseMatte_dup_msg hchk hp, dupMsg_contains _ _⟩
  · intro parts line scn hchk hp
    exact ⟨_, parseMetal_dup_msg hchk hp, dupMsg_contains _ _⟩
  · intro parts line scn hchk hp
    exact ⟨_, parseRefractive_dup_msg hchk hp, dupMsg_contains _ _⟩
  · intro scn name line h
    unfold validateMaterialUnique
    rw [if_neg (by rw [h]; simp)]

/-- C8 counterexample: with an unrelated bad line before the two
`matte m` definitions, parsing fails with the unknown-entity message for
line 1, which does not contain the duplicate name `m` — so the claim's
"the error message contains that duplicate name" does not hold of every
such file. -/
theorem C8_counterexample :
    definesName "matte m 1 0 0" "m" = true ∧ definesName "matte m 0 1 0" "m" = true ∧
    parseScene ["wat", "matte m 1 0 0", "matte m 0 1 0"] =
      .error "Error on line 1: Unknown scene entity [wat]" ∧
    strContains "Error on line 1: Unknown scene entity [wat]" "m" = false := by
  exact ⟨by decide, by decide, rfl, by decide⟩

theorem C8_witness :
    ∃ e, parseScene ["matte m 1 0 0", "matte m 0 1 0"] = .error e :=
  (C8_duplicate_material_name ["matte m 1 0 0", "matte m 0 1 0"] 0 1 "m"
    (by decide) (by decide) (by decide) (by decide)).1

end RT
